import Mathlib

/-!
# satbus — shallow embedding and verification of the control-kernel claims

This file embeds, in Lean 4, the parts of the `satbus` satellite-bus
simulator (Rust) that the verified claims are about:

* the time-tagged command scheduler (`src/scheduler.rs`),
* the agent's rate limiter, response buffer and command pipeline
  (`src/agent.rs`),
* the protocol command tracker (`src/protocol.rs`),
* the safety supervisor (`src/safety.rs`),
* the telemetry collector and batcher (`src/telemetry.rs`),
* the power subsystem's battery integration (`src/subsystems/power.rs`).

Machine integers are modelled as `Nat`/`Int` with explicit wrapping or
clamping where the source's casts matter.  Rust `Instant` values are
modelled as millisecond counters (`Nat`); `heapless::Vec<T, N>` values are
modelled as `List T` with the capacity bound `N` enforced at the operations
that check it, exactly where the source checks it.  Floating-point
intermediate values that feed integer state are abstracted as universally
quantified integer parameters constrained only by the range the Rust
`as i16`/`as u16` saturating casts guarantee; every theorem that depends on
such a parameter quantifies over all of its possible values.
-/

set_option maxHeartbeats 1000000

namespace Satbus

/-! ## Core enumerations (src/subsystems/mod.rs, src/protocol.rs, src/safety.rs) -/

/-- The `SubsystemId` from `src/subsystems/mod.rs`. -/
inductive SubsystemId where
  | Power
  | Thermal
  | Comms
deriving DecidableEq, Repr

/-- The `FaultType` from `src/subsystems/mod.rs`. -/
inductive FaultType where
  | Degraded
  | Failed
  | Offline
deriving DecidableEq, Repr

/-- The `Fault` from `src/subsystems/mod.rs`. -/
structure Fault where
  subsystem : SubsystemId
  fault_type : FaultType
  timestamp : Nat
deriving DecidableEq, Repr

/-- The `ResponseStatus` from `src/protocol.rs`. -/
inductive ResponseStatus where
  | Success
  | Error
  | InvalidCommand
  | SystemBusy
  | SafeModeActive
  | Scheduled
  | Acknowledged
  | NegativeAck
  | ExecutionStarted
  | ExecutionFailed
  | Timeout
  | InProgress
deriving DecidableEq, Repr

/-- The `CommandType` from `src/protocol.rs`.  The `TransmitMessage` payload is
kept as a `String`; subsystem-specific parameters keep their source types
(`i8` as `Int`, `bool` as `Bool`). -/
inductive CommandType where
  | Ping
  | SystemStatus
  | SetHeaterState (heater_on : Bool)
  | SetCommsLink (enabled : Bool)
  | SetSolarPanel (enabled : Bool)
  | SetTxPower (power_dbm : Int)
  | SimulateFault (target : SubsystemId) (fault_type : FaultType)
  | ClearFaults (target : Option SubsystemId)
  | ClearSafetyEvents (force : Bool)
  | SetSafeMode (enabled : Bool)
  | TransmitMessage (message : String)
  | SystemReboot
  | SetFaultInjection (enabled : Bool)
  | GetFaultInjectionStatus
deriving DecidableEq, Repr

/-- The `Command` from `src/protocol.rs`: `id: u32`, `timestamp: u64`,
`command_type`, optional `execution_time`. -/
structure Command where
  id : Nat
  timestamp : Nat
  command_type : CommandType
  execution_time : Option Nat
deriving DecidableEq, Repr

/-- The `ProtocolError` from `src/protocol.rs`. -/
inductive ProtocolError where
  | InvalidJson
  | MessageTooLarge
  | SerializationError
  | InvalidCommand
  | InvalidParameter
  | BufferOverflow
deriving DecidableEq, Repr

/-- The `AgentError` from `src/agent.rs` (string payloads dropped: no claim
inspects them). -/
inductive AgentError where
  | ProtocolError (e : ProtocolError)
  | SubsystemError
  | TelemetryError
  | CommandQueueFull
  | RateLimitExceeded
  | SafetyError
  | SchedulingError
deriving DecidableEq, Repr

/-! ## Command scheduler (src/scheduler.rs) -/

/-- The `ScheduledCommand` from `src/scheduler.rs`. -/
structure ScheduledCommand where
  command : Command
  execution_time : Nat
  scheduled_at : Nat
deriving DecidableEq, Repr

/-- The `MAX_SCHEDULED_COMMANDS` from `src/scheduler.rs`. -/
def MAX_SCHEDULED_COMMANDS : Nat := 32

/-- The loop body of `CommandScheduler::get_ready_commands`
(`src/scheduler.rs:94-123`): walk the scheduled list from the front,
collecting entries with `execution_time <= current_time` until the
8-capacity ready buffer is full or a not-yet-ready entry is found (the
loop `break`s in either case), then remove the collected prefix in order.
Returns (drained entries, remaining entries). -/
def getReadyGo (now : Nat) : List ScheduledCommand → Nat →
    List ScheduledCommand × List ScheduledCommand
  | [], _ => ([], [])
  | x :: xs, 0 => ([], x :: xs)
  | x :: xs, cap + 1 =>
    if x.execution_time ≤ now then
      let r := getReadyGo now xs cap
      (x :: r.1, r.2)
    else
      ([], x :: xs)

/-- The `CommandScheduler::get_ready_commands` (`src/scheduler.rs:94-123`):
the source pushes `scheduled_cmd.command.clone()` into the ready buffer
(capacity 8) and removes the drained entries in order with `remove`, not
`swap_remove`.  Returns (ready commands, remaining scheduled entries). -/
def get_ready_commands (scheduled : List ScheduledCommand) (now : Nat) :
    List Command × List ScheduledCommand :=
  let r := getReadyGo now scheduled 8
  (r.1.map (·.command), r.2)

/-- The `CommandScheduler::cleanup_expired_commands` (`src/scheduler.rs:126-137`):
retain entries with `scheduled_at > current_time - timeout_seconds*1000`
(saturating subtraction). -/
def cleanup_expired_commands (scheduled : List ScheduledCommand)
    (now timeout_seconds : Nat) : List ScheduledCommand :=
  scheduled.filter (fun c => now - timeout_seconds * 1000 < c.scheduled_at)

/-- The `CommandScheduler::schedule_command` (`src/scheduler.rs:39-91`):
validate the window, then insert preserving chronological order (the source
pushes and stable-sorts by `execution_time` when the insert position is
interior, which `List.mergeSort` reproduces). -/
def schedule_command (scheduled : List ScheduledCommand) (cmd : Command)
    (now timeout_seconds : Nat) : Except String (List ScheduledCommand) :=
  let execution_time := cmd.execution_time.getD now
  if execution_time > now + timeout_seconds * 1000 then
    .error "Execution time too far in future"
  else if execution_time < now - 5000 then
    .error "Execution time in the past"
  else
    let sc : ScheduledCommand :=
      { command := cmd, execution_time := execution_time, scheduled_at := now }
    let insert_position :=
      ((scheduled.findIdx? (fun c => execution_time < c.execution_time)).getD
        scheduled.length)
    if scheduled.length ≥ MAX_SCHEDULED_COMMANDS then
      .error "Scheduler queue full"
    else if insert_position < scheduled.length then
      .ok ((scheduled ++ [sc]).mergeSort (fun a b => a.execution_time ≤ b.execution_time))
    else
      .ok (scheduled ++ [sc])

/-- Chronological sortedness of a scheduler state (the invariant
`schedule_command` maintains). -/
def SchedSorted (l : List ScheduledCommand) : Prop :=
  l.Pairwise (fun a b => a.execution_time ≤ b.execution_time)

instance : DecidablePred SchedSorted := fun l =>
  inferInstanceAs (Decidable (l.Pairwise _))

/-! ### Scheduler drain lemmas -/

theorem getReadyGo_append (now : Nat) :
    ∀ (l : List ScheduledCommand) (cap : Nat),
      (getReadyGo now l cap).1 ++ (getReadyGo now l cap).2 = l := by
  intro l
  induction l with
  | nil => intro cap; simp [getReadyGo]
  | cons x xs ih =>
    intro cap
    cases cap with
    | zero => simp [getReadyGo]
    | succ n =>
      by_cases h : x.execution_time ≤ now
      · simp [getReadyGo, h, ih n]
      · simp [getReadyGo, h]

theorem getReadyGo_length (now : Nat) :
    ∀ (l : List ScheduledCommand) (cap : Nat),
      (getReadyGo now l cap).1.length ≤ cap := by
  intro l
  induction l with
  | nil => intro cap; simp [getReadyGo]
  | cons x xs ih =>
    intro cap
    cases cap with
    | zero => simp [getReadyGo]
    | succ n =>
      by_cases h : x.execution_time ≤ now
      · simpa [getReadyGo, h, Nat.succ_le_succ_iff] using ih n
      · simp [getReadyGo, h]

theorem getReadyGo_remaining_future (now : Nat) :
    ∀ (l : List ScheduledCommand) (cap : Nat), SchedSorted l →
      (getReadyGo now l cap).1.length < cap →
      ∀ e ∈ (getReadyGo now l cap).2, now < e.execution_time := by
  intro l
  induction l with
  | nil => intro cap _ _ e he; simp [getReadyGo] at he
  | cons x xs ih =>
    intro cap hsorted hlen e he
    cases cap with
    | zero => omega
    | succ n =>
      rw [SchedSorted, List.pairwise_cons] at hsorted
      by_cases h : x.execution_time ≤ now
      · simp only [getReadyGo, h, if_pos, List.length_cons] at hlen he
        exact ih n hsorted.2 (by omega) e he
      · simp only [getReadyGo, h, if_neg, not_false_iff] at he
        push_neg at h
        rw [List.mem_cons] at he
        rcases he with rfl | he
        · exact h
        · exact lt_of_lt_of_le h (hsorted.1 e he)

theorem getReadyGo_drained_sorted (now : Nat)
    (l : List ScheduledCommand) (cap : Nat) (hsorted : SchedSorted l) :
    ((getReadyGo now l cap).1).Pairwise
      (fun a b => a.execution_time ≤ b.execution_time) := by
  have h := getReadyGo_append now l cap
  have : ((getReadyGo now l cap).1 ++ (getReadyGo now l cap).2).Pairwise
      (fun a b => a.execution_time ≤ b.execution_time) := by
    rw [h]; exact hsorted
  exact (List.pairwise_append.mp this).1

/-! ## Agent command intake: rate limiter, queue, responses (src/agent.rs) -/

/-- Rate-limit constants from `src/agent.rs:16-18`. -/
def MAX_COMMAND_RATE_PER_SEC : Nat := 5

/-- The `AVG_COMMAND_RATE_PER_SEC` from `src/agent.rs:17`. -/
def AVG_COMMAND_RATE_PER_SEC : Nat := 2

/-- The `RATE_LIMIT_WINDOW_MS` from `src/agent.rs:18`. -/
def RATE_LIMIT_WINDOW_MS : Nat := 1000

/-- The `MAX_COMMAND_QUEUE_SIZE` from `src/agent.rs:11`. -/
def MAX_COMMAND_QUEUE_SIZE : Nat := 32

/-- The `CommandResponse` from `src/protocol.rs`. -/
structure CommandResponse where
  id : Nat
  timestamp : Nat
  status : ResponseStatus
  message : Option String
deriving DecidableEq, Repr

/-- The slice of `SatelliteAgent` state that its command-intake path
mutates (`src/agent.rs:60-71`): the `heapless::spsc` command queue
(capacity 32), the 16-entry `Instant` window of submission timestamps
(modelled as milliseconds), the bounded scheduler, and `last_error`
(the source stores a formatted string; the model stores the error value). -/
structure AgentIntake where
  command_timestamps : List Nat
  command_queue : List Command
  scheduled_commands : List ScheduledCommand
  last_error : Option AgentError
deriving DecidableEq, Repr

/-- The `SatelliteAgent::cleanup_old_timestamps` (`src/agent.rs:614-617`):
retain timestamps at or after `now - RATE_LIMIT_WINDOW_MS` (`Instant`
subtraction, truncated at zero in the model). -/
def cleanup_old_timestamps (ts : List Nat) (now : Nat) : List Nat :=
  ts.filter (fun t => now - RATE_LIMIT_WINDOW_MS ≤ t)

/-- Recording a submission timestamp (`src/agent.rs:654-659`): `push`, and
on a full 16-entry window `swap_remove(0)` (move the last entry into slot 0,
drop slot 0's old value) followed by `push`. -/
def push_timestamp (ts : List Nat) (now : Nat) : List Nat :=
  if ts.length < 16 then ts ++ [now]
  else ((ts.getLastD 0) :: (ts.drop 1).dropLast) ++ [now]

/-- The `SatelliteAgent::queue_command_immediate` (`src/agent.rs:625-663`):
trim the timestamp window, reject with `RateLimitExceeded` when the burst
bound (5) is hit or when at least `AVG_COMMAND_RATE_PER_SEC = 2` trimmed
timestamps lie inside the trailing 1000 ms window, otherwise record the
timestamp and enqueue (rejecting with `CommandQueueFull` on a full
32-entry queue).  `queue_command` (`src/agent.rs:619-623`) forwards here
unchanged. -/
def queue_command_immediate (ag : AgentIntake) (cmd : Command) (now : Nat) :
    AgentIntake × Option AgentError :=
  let ts := cleanup_old_timestamps ag.command_timestamps now
  if MAX_COMMAND_RATE_PER_SEC ≤ ts.length then
    ({ ag with command_timestamps := ts }, some .RateLimitExceeded)
  else if AVG_COMMAND_RATE_PER_SEC ≤ ts.length ∧
      AVG_COMMAND_RATE_PER_SEC ≤
        (ts.filter (fun t => now - RATE_LIMIT_WINDOW_MS ≤ t)).length then
    ({ ag with command_timestamps := ts }, some .RateLimitExceeded)
  else
      let ts' := push_timestamp ts now
      if ag.command_queue.length < MAX_COMMAND_QUEUE_SIZE then
        ({ ag with command_timestamps := ts',
                   command_queue := ag.command_queue ++ [cmd] }, none)
      else
        ({ ag with command_timestamps := ts' }, some .CommandQueueFull)

/-- The re-queue body of `SatelliteAgent::process_scheduled_commands`
(`src/agent.rs:413-422`): clear `execution_time` and hand the command to
`queue_command_immediate`; an error is recorded in `last_error` and the
command is dropped. -/
def requeue_step (now : Nat) (a : AgentIntake) (cmd : Command) : AgentIntake :=
  let immediate := { cmd with execution_time := none }
  match queue_command_immediate a immediate now with
  | (a', none) => a'
  | (a', some e) => { a' with last_error := some e }

/-- The `SatelliteAgent::process_scheduled_commands` (`src/agent.rs:403-425`):
drop expired entries (1 h default timeout), drain the ready set, and
re-queue each drained command as immediate. -/
def process_scheduled_commands (ag : AgentIntake) (now : Nat) : AgentIntake :=
  let sched := cleanup_expired_commands ag.scheduled_commands now 3600
  let r := get_ready_commands sched now
  r.1.foldl (requeue_step now) { ag with scheduled_commands := r.2 }

/-- The response-buffer push of `SatelliteAgent::process_commands`
(`src/agent.rs:672-682`): `push` into the 16-entry buffer; when full, the
source calls `heapless::Vec::pop` (which removes the LAST element) and
pushes the new response. -/
def push_response (buf : List CommandResponse) (r : CommandResponse) :
    List CommandResponse :=
  if buf.length < 16 then buf ++ [r]
  else buf.dropLast ++ [r]

/-! ### Rate limiter lemmas -/

theorem cleanup_old_timestamps_idem (ts : List Nat) (now : Nat) :
    cleanup_old_timestamps (cleanup_old_timestamps ts now) now =
      cleanup_old_timestamps ts now := by
  simp [cleanup_old_timestamps, List.filter_filter]

theorem cleanup_filter_self (ts : List Nat) (now : Nat) :
    (cleanup_old_timestamps ts now).filter
        (fun t => now - RATE_LIMIT_WINDOW_MS ≤ t) =
      cleanup_old_timestamps ts now := by
  simp [cleanup_old_timestamps, List.filter_filter]

/-- On a window already holding ≥ 2 trimmed timestamps, submission is
rejected with `RateLimitExceeded` and only the trim is kept. -/
theorem queue_command_immediate_reject (ag : AgentIntake) (cmd : Command)
    (now : Nat)
    (h2 : 2 ≤ (cleanup_old_timestamps ag.command_timestamps now).length) :
    queue_command_immediate ag cmd now =
      ({ ag with command_timestamps :=
          cleanup_old_timestamps ag.command_timestamps now },
        some .RateLimitExceeded) := by
  unfold queue_command_immediate
  by_cases h5 : MAX_COMMAND_RATE_PER_SEC ≤
      (cleanup_old_timestamps ag.command_timestamps now).length
  · rw [if_pos h5]
  · rw [if_neg h5, if_pos]
    exact ⟨h2, by rw [cleanup_filter_self]; exact h2⟩

/-- On a window holding fewer than 2 trimmed timestamps, submission is not
rate-limited and the timestamp is recorded. -/
theorem queue_command_immediate_accept (ag : AgentIntake) (cmd : Command)
    (now : Nat)
    (h2 : (cleanup_old_timestamps ag.command_timestamps now).length < 2) :
    (queue_command_immediate ag cmd now).1.command_timestamps =
      cleanup_old_timestamps ag.command_timestamps now ++ [now] ∧
    (queue_command_immediate ag cmd now).2 ≠ some .RateLimitExceeded := by
  unfold queue_command_immediate
  have h5 : ¬ MAX_COMMAND_RATE_PER_SEC ≤
      (cleanup_old_timestamps ag.command_timestamps now).length := by
    unfold MAX_COMMAND_RATE_PER_SEC; omega
  have havg : ¬ (AVG_COMMAND_RATE_PER_SEC ≤
      (cleanup_old_timestamps ag.command_timestamps now).length ∧
      AVG_COMMAND_RATE_PER_SEC ≤
        ((cleanup_old_timestamps ag.command_timestamps now).filter
          (fun t => now - RATE_LIMIT_WINDOW_MS ≤ t)).length) := by
    intro h
    unfold AVG_COMMAND_RATE_PER_SEC at h
    omega
  rw [if_neg h5, if_neg havg]
  have hpush : push_timestamp (cleanup_old_timestamps ag.command_timestamps now)
      now = cleanup_old_timestamps ag.command_timestamps now ++ [now] := by
    unfold push_timestamp
    rw [if_pos (by omega)]
  by_cases hq : ag.command_queue.length < MAX_COMMAND_QUEUE_SIZE
  · rw [if_pos hq]; exact ⟨hpush, by simp⟩
  · rw [if_neg hq]; exact ⟨hpush, by simp⟩

/-! ### Claim C10 -/

/-- C10: once the trailing-1000 ms window already holds 2 submission
timestamps, `queue_command` rejects every further submission with
`RateLimitExceeded` (leaving only the trimmed window recorded); with fewer
than 2 in-window timestamps the submission is not rate-limited, its
timestamp is appended, and the recorded window still holds at most 2
timestamps — a strictly tighter bound than the 5-per-second burst limit.
Trimming keeps exactly the timestamps inside the trailing window, so a
rejection lasts until a timestamp ages out. -/
theorem rate_limiter_two_per_window (ag : AgentIntake) (cmd : Command)
    (now : Nat) :
    (∀ t ∈ cleanup_old_timestamps ag.command_timestamps now,
        now - RATE_LIMIT_WINDOW_MS ≤ t) ∧
    (2 ≤ (cleanup_old_timestamps ag.command_timestamps now).length →
      queue_command_immediate ag cmd now =
        ({ ag with command_timestamps :=
            cleanup_old_timestamps ag.command_timestamps now },
          some .RateLimitExceeded)) ∧
    ((cleanup_old_timestamps ag.command_timestamps now).length < 2 →
      (queue_command_immediate ag cmd now).1.command_timestamps =
        cleanup_old_timestamps ag.command_timestamps now ++ [now] ∧
      (queue_command_immediate ag cmd now).2 ≠ some .RateLimitExceeded ∧
      (queue_command_immediate ag cmd now).1.command_timestamps.length ≤ 2) := by
  refine ⟨?_, ?_, ?_⟩
  · intro t ht
    have := List.of_mem_filter ht
    simpa using this
  · intro h2
    exact queue_command_immediate_reject ag cmd now h2
  · intro h2
    obtain ⟨hts, herr⟩ := queue_command_immediate_accept ag cmd now h2
    refine ⟨hts, herr, ?_⟩
    rw [hts]
    simp only [List.length_append, List.length_singleton]
    omega

/-- Witness for C10: with two timestamps already in the window at
`now = 1000`, a further `Ping` submission is rejected. -/
theorem rate_limiter_two_per_window_witness :
    queue_command_immediate
        ⟨[1000, 1000], [], [], none⟩
        ⟨1, 0, .Ping, none⟩ 1000 =
      (⟨[1000, 1000], [], [], none⟩, some .RateLimitExceeded) :=
  (rate_limiter_two_per_window ⟨[1000, 1000], [], [], none⟩
    ⟨1, 0, .Ping, none⟩ 1000).2.1 (by decide)

/-! ### Claim C6 -/

/-- C6 (amended): `get_ready_commands` drains at most 8 commands; the
drained entries followed by the remaining entries reconstruct the original
scheduler state, so the remaining entries keep their relative order; when
fewer than 8 commands were drained every remaining entry has
`execute_at > now`; and on a chronologically sorted scheduler the drained
commands come out in chronological order.  (When more than 8 entries are
ready, ready entries beyond the 8th remain with `execute_at ≤ now`.) -/
theorem scheduler_drain_spec (l : List ScheduledCommand) (now : Nat)
    (hs : SchedSorted l) :
    (get_ready_commands l now).1.length ≤ 8 ∧
    (getReadyGo now l 8).1 ++ (get_ready_commands l now).2 = l ∧
    ((get_ready_commands l now).1.length < 8 →
      ∀ e ∈ (get_ready_commands l now).2, now < e.execution_time) ∧
    List.Pairwise (fun a b => a.execution_time ≤ b.execution_time)
      (getReadyGo now l 8).1 ∧
    (get_ready_commands l now).1 = ((getReadyGo now l 8).1).map (·.command) := by
  refine ⟨?_, ?_, ?_, ?_, rfl⟩
  · simpa [get_ready_commands] using getReadyGo_length now l 8
  · exact getReadyGo_append now l 8
  · intro hlen e he
    simp only [get_ready_commands, List.length_map] at hlen he
    exact getReadyGo_remaining_future now l 8 hs hlen e he
  · exact getReadyGo_drained_sorted now l 8 hs

/-- A two-entry scheduler state used to witness the drain specification. -/
def schedPairExample : List ScheduledCommand :=
  [⟨⟨1, 0, .Ping, some 500⟩, 500, 0⟩, ⟨⟨2, 0, .Ping, some 2000⟩, 2000, 0⟩]

/-- Witness for C6: draining a sorted two-entry scheduler at `now = 1000`
takes the ready entry and leaves the future one. -/
theorem scheduler_drain_spec_witness :
    SchedSorted schedPairExample ∧
    ((get_ready_commands schedPairExample 1000).1.length ≤ 8 ∧
     (getReadyGo 1000 schedPairExample 8).1 ++
        (get_ready_commands schedPairExample 1000).2 = schedPairExample ∧
     ((get_ready_commands schedPairExample 1000).1.length < 8 →
       ∀ e ∈ (get_ready_commands schedPairExample 1000).2,
         1000 < e.execution_time) ∧
     List.Pairwise (fun a b => a.execution_time ≤ b.execution_time)
       (getReadyGo 1000 schedPairExample 8).1 ∧
     (get_ready_commands schedPairExample 1000).1 =
       ((getReadyGo 1000 schedPairExample 8).1).map (·.command)) :=
  ⟨by decide, scheduler_drain_spec schedPairExample 1000 (by decide)⟩

/-- A scheduler entry that is ready at time 0. -/
def readyEntry : ScheduledCommand := ⟨⟨1, 0, .Ping, some 0⟩, 0, 0⟩

/-- Counterexample for C6 as stated: with 9 ready entries, one entry with
`execute_at ≤ now` remains in the scheduler after the drain. -/
theorem scheduler_drain_leftover_counterexample :
    (get_ready_commands (List.replicate 9 readyEntry) 0).2 = [readyEntry] ∧
    readyEntry.execution_time ≤ 0 := by decide

/-! ### Claim C2 -/

/-- Folding the scheduler re-queue over any drained command list, starting
from a state whose trimmed window holds ≥ 2 timestamps, rejects every
command: the queue is unchanged and (when any command was drained)
`last_error` records `RateLimitExceeded`. -/
theorem requeue_fold_rejects (now : Nat) :
    ∀ (cmds : List Command) (a : AgentIntake),
      2 ≤ (cleanup_old_timestamps a.command_timestamps now).length →
      (cmds.foldl (requeue_step now) a).command_queue = a.command_queue ∧
      2 ≤ (cleanup_old_timestamps
            (cmds.foldl (requeue_step now) a).command_timestamps now).length ∧
      (cmds ≠ [] →
        (cmds.foldl (requeue_step now) a).last_error =
          some .RateLimitExceeded) := by
  intro cmds
  induction cmds with
  | nil => intro a h2; exact ⟨rfl, h2, by simp⟩
  | cons c cs ih =>
    intro a h2
    have hstep : requeue_step now a c =
        ⟨cleanup_old_timestamps a.command_timestamps now, a.command_queue,
          a.scheduled_commands, some .RateLimitExceeded⟩ := by
      have hrej := queue_command_immediate_reject a
        ⟨c.id, c.timestamp, c.command_type, none⟩ now h2
      simp only [requeue_step, hrej]
    have h2' : 2 ≤ (cleanup_old_timestamps
        (requeue_step now a c).command_timestamps now).length := by
      rw [hstep]
      simpa [cleanup_old_timestamps_idem] using h2
    have := ih (requeue_step now a c) h2'
    refine ⟨?_, this.2.1, ?_⟩
    · rw [List.foldl_cons, this.1, hstep]
    · intro _
      rcases hcs : cs with _ | ⟨c', cs'⟩
      · simp only [List.foldl_cons, hcs, List.foldl_nil, hstep]
      · rw [List.foldl_cons]
        exact (hcs ▸ this.2.2) (by simp)

/-- C2 (amended): a scheduled command re-queued by the scheduler drain goes
through the same rate limiter as a fresh submission; whenever the trimmed
1000 ms window already holds at least 2 timestamps, every drained command
is rejected with `RateLimitExceeded` (recorded in `last_error`) and never
reaches the command queue. -/
theorem scheduled_requeue_rate_limited (ag : AgentIntake) (now : Nat)
    (h2 : 2 ≤ (cleanup_old_timestamps ag.command_timestamps now).length) :
    (process_scheduled_commands ag now).command_queue = ag.command_queue ∧
    ((get_ready_commands
        (cleanup_expired_commands ag.scheduled_commands now 3600) now).1 ≠ [] →
      (process_scheduled_commands ag now).last_error =
        some .RateLimitExceeded) := by
  unfold process_scheduled_commands
  have := requeue_fold_rejects now
    (get_ready_commands
      (cleanup_expired_commands ag.scheduled_commands now 3600) now).1
    { ag with scheduled_commands :=
        (get_ready_commands
          (cleanup_expired_commands ag.scheduled_commands now 3600) now).2 }
    (by simpa using h2)
  exact ⟨this.1, this.2.2⟩

/-- A ready scheduled entry used in the C2 analysis. -/
def cexSched : ScheduledCommand := ⟨⟨7, 0, .Ping, some 900⟩, 900, 500⟩

/-- Counterexample for C2 as stated: with two in-window submission
timestamps, the scheduler drain's re-queue of the due command is rejected
with `RateLimitExceeded`; the command is dropped and never enqueued. -/
theorem scheduled_requeue_rejected_counterexample :
    process_scheduled_commands ⟨[1000, 1000], [], [cexSched], none⟩ 1000 =
      ⟨[1000, 1000], [], [], some .RateLimitExceeded⟩ ∧
    queue_command_immediate ⟨[1000, 1000], [], [], none⟩
        { cexSched.command with execution_time := none } 1000 =
      (⟨[1000, 1000], [], [], none⟩, some .RateLimitExceeded) := by decide

/-- Witness for C2 (amended) at a concrete state. -/
theorem scheduled_requeue_rate_limited_witness :
    2 ≤ (cleanup_old_timestamps [1000, 1000] 1000).length ∧
    ((process_scheduled_commands
        ⟨[1000, 1000], [⟨42, 0, .Ping, none⟩], [cexSched], none⟩
        1000).command_queue = [⟨42, 0, .Ping, none⟩] ∧
     ((get_ready_commands
        (cleanup_expired_commands [cexSched] 1000 3600) 1000).1 ≠ [] →
       (process_scheduled_commands
          ⟨[1000, 1000], [⟨42, 0, .Ping, none⟩], [cexSched], none⟩
          1000).last_error = some .RateLimitExceeded)) := by
  exact ⟨by decide,
    scheduled_requeue_rate_limited
      ⟨[1000, 1000], [⟨42, 0, .Ping, none⟩], [cexSched], none⟩
      1000 (by decide)⟩

/-! ### Claim C3 -/

/-- A concrete response used to exercise the response buffer. -/
def numberedResponse (i : Nat) : CommandResponse := ⟨i, 0, .Success, none⟩

/-- C3: the response-buffer overflow policy in the source calls
`heapless::Vec::pop`, which removes the LAST (newest) buffered response,
not the oldest, before pushing the new one.  On a full buffer of responses
0..15, pushing response 16 keeps response 0 (the oldest) and discards
response 15 (the newest) — the code contradicts its own
"remove oldest" comment (`src/agent.rs:679`) and the spec. -/
theorem response_buffer_evicts_newest :
    push_response ((List.range 16).map numberedResponse)
        (numberedResponse 16) =
      (List.range 15).map numberedResponse ++ [numberedResponse 16] ∧
    numberedResponse 0 ∈
      push_response ((List.range 16).map numberedResponse)
        (numberedResponse 16) ∧
    numberedResponse 15 ∉
      push_response ((List.range 16).map numberedResponse)
        (numberedResponse 16) := by decide

/-! ## Safety supervisor (src/safety.rs) -/

/-- The `SafetyLevel` from `src/safety.rs` with its derived `Ord`
(declaration order). -/
inductive SafetyLevel where
  | Normal
  | Caution
  | Warning
  | Critical
  | Emergency
deriving DecidableEq, Repr

/-- Rank of a safety level under the derived `Ord` of `src/safety.rs`. -/
def SafetyLevel.rank : SafetyLevel → Nat
  | .Normal => 0
  | .Caution => 1
  | .Warning => 2
  | .Critical => 3
  | .Emergency => 4

/-- Binary maximum of safety levels (the derived `Ord`'s `max`). -/
def levelMax (a b : SafetyLevel) : SafetyLevel :=
  if a.rank ≤ b.rank then b else a

/-- The `SafetyEvent` from `src/safety.rs`. -/
inductive SafetyEvent where
  | BatteryLow
  | BatteryVoltageUnstable
  | TemperatureHigh
  | TemperatureLow
  | CommsLinkLost
  | SystemOverload
  | WatchdogTimeout
  | PowerSystemFailure
  | ThermalSystemFailure
  | CommsSystemFailure
deriving DecidableEq, Repr

/-- The `SafetyEventRecord` from `src/safety.rs`. -/
structure SafetyEventRecord where
  event : SafetyEvent
  timestamp : Nat
  level : SafetyLevel
  subsystem : SubsystemId
  resolved : Bool
deriving DecidableEq, Repr

/-- The `SafetyState` from `src/safety.rs`.  `active_events` is a `u8` in the
source, so counts are stored mod 256; `safe_mode_entry_count` is a
saturating `u32`. -/
structure SafetyState where
  safe_mode_active : Bool
  safety_level : SafetyLevel
  active_events : Nat
  watchdog_enabled : Bool
  last_watchdog_reset : Nat
  safe_mode_entry_count : Nat
  system_uptime_safe_s : Nat
  manual_override_active : Bool
  manual_override_expires : Nat
deriving DecidableEq, Repr

/-- The `SafetyActions` from `src/safety.rs`. -/
structure SafetyActions where
  enable_power_save : Bool := false
  enable_emergency_power_save : Bool := false
  enable_heaters : Bool := false
  enable_emergency_heaters : Bool := false
  disable_heaters : Bool := false
  disable_non_essential_systems : Bool := false
  enable_survival_mode : Bool := false
  restore_normal_operations : Bool := false
deriving DecidableEq, Repr

/-- The `SafetyActions::new` (`src/safety.rs:478-480`). -/
def SafetyActions.new : SafetyActions := {}

/-- The `SafetyManager` from `src/safety.rs`.  The threshold fields are fixed
at construction (`battery_critical_mv = 3200`, `battery_warning_mv = 3400`,
`temp_critical_high_c = 75`, `temp_critical_low_c = -40`,
`temp_warning_high_c = 65`, `temp_warning_low_c = -30`) and never mutated,
so they are inlined as literals in the check functions below. -/
structure SafetyManager where
  state : SafetyState
  event_history : List SafetyEventRecord
  watchdog_last_reset : Nat
  safe_mode_entry_time : Nat
deriving DecidableEq, Repr

/-- The `MAX_SAFETY_EVENTS` from `src/safety.rs:5`. -/
def MAX_SAFETY_EVENTS : Nat := 32

/-- The `SafetyManager::new` (`src/safety.rs:77-106`). -/
def SafetyManager.new : SafetyManager :=
  { state :=
      { safe_mode_active := false
        safety_level := .Normal
        active_events := 0
        watchdog_enabled := true
        last_watchdog_reset := 0
        safe_mode_entry_count := 0
        system_uptime_safe_s := 0
        manual_override_active := false
        manual_override_expires := 0 }
    event_history := []
    watchdog_last_reset := 0
    safe_mode_entry_time := 0 }

/-- The `iter_mut().find(..)` refresh of `SafetyManager::record_event`
(`src/safety.rs:376-386`): update the first unresolved record with the
same event and subsystem, returning `none` when there is no such record. -/
def recordEventGo (event : SafetyEvent) (timestamp : Nat) (level : SafetyLevel)
    (subsystem : SubsystemId) :
    List SafetyEventRecord → Option (List SafetyEventRecord)
  | [] => none
  | e :: rest =>
    if e.event = event ∧ e.subsystem = subsystem ∧ e.resolved = false then
      some ({ e with timestamp := timestamp, level := level } :: rest)
    else
      (recordEventGo event timestamp level subsystem rest).map (e :: ·)

/-- The `SafetyManager::record_event` (`src/safety.rs:368-403`): refresh the
existing unresolved record if present; otherwise append to the 32-entry
ring, evicting the oldest entry when full. -/
def record_event (mgr : SafetyManager) (event : SafetyEvent) (timestamp : Nat)
    (level : SafetyLevel) (subsystem : SubsystemId) : SafetyManager :=
  match recordEventGo event timestamp level subsystem mgr.event_history with
  | some h => { mgr with event_history := h }
  | none =>
    let h :=
      if MAX_SAFETY_EVENTS ≤ mgr.event_history.length then
        mgr.event_history.drop 1
      else mgr.event_history
    let rec' : SafetyEventRecord :=
      { event := event, timestamp := timestamp, level := level,
        subsystem := subsystem, resolved := false }
    { mgr with event_history :=
        if h.length < MAX_SAFETY_EVENTS then h ++ [rec'] else h }

/-- Maximum level over unresolved events (`Normal` if none) — the quantity
`SafetyManager::update_safety_level` computes with
`.map(level).max().unwrap_or(Normal)` (`src/safety.rs:362-365`). -/
def maxUnresolvedLevel (h : List SafetyEventRecord) : SafetyLevel :=
  ((h.filter (fun e => !e.resolved)).map (·.level)).foldl levelMax .Normal

/-- Number of unresolved events in a history. -/
def unresolvedCount (h : List SafetyEventRecord) : Nat :=
  (h.filter (fun e => !e.resolved)).length

/-- The `SafetyManager::update_safety_level` (`src/safety.rs:354-366`):
`active_events` gets the unresolved count cast to `u8`, `safety_level` the
maximum unresolved level. -/
def update_safety_level (mgr : SafetyManager) : SafetyManager :=
  { mgr with state :=
      { mgr.state with
        active_events := unresolvedCount mgr.event_history % 256,
        safety_level := maxUnresolvedLevel mgr.event_history } }

/-- The `SafetyManager::should_enter_safe_mode` (`src/safety.rs:306-316`). -/
def should_enter_safe_mode (mgr : SafetyManager) : Bool :=
  let critical_events :=
    (mgr.event_history.filter
      (fun e => !e.resolved && e.level = .Critical)).length
  let emergency_events :=
    (mgr.event_history.filter
      (fun e => !e.resolved && e.level = .Emergency)).length
  decide (0 < critical_events) || decide (0 < emergency_events)

/-- The `SafetyManager::enter_safe_mode` (`src/safety.rs:318-334`). -/
def enter_safe_mode (mgr : SafetyManager) (current_time : Nat)
    (actions : SafetyActions) : SafetyManager × SafetyActions :=
  let mgr :=
    { mgr with
      state := { mgr.state with
        safe_mode_active := true,
        safe_mode_entry_count :=
          min (mgr.state.safe_mode_entry_count + 1) (2 ^ 32 - 1) }
      safe_mode_entry_time := current_time }
  let actions :=
    { actions with
      enable_emergency_power_save := true,
      disable_non_essential_systems := true,
      enable_survival_mode := true }
  (record_event mgr .SystemOverload current_time .Emergency .Power, actions)

/-- The `SafetyManager::exit_safe_mode` (`src/safety.rs:336-352`): clear the
flag, resolve every unresolved Critical/Emergency record, and reset
`active_events`/`safety_level`. -/
def exit_safe_mode (mgr : SafetyManager) (_current_time : Nat)
    (actions : SafetyActions) : SafetyManager × SafetyActions :=
  let hist := mgr.event_history.map (fun e =>
    if !e.resolved && (e.level = .Emergency || e.level = .Critical) then
      { e with resolved := true }
    else e)
  ({ mgr with
      event_history := hist
      state := { mgr.state with
        safe_mode_active := false,
        active_events := 0,
        safety_level := .Normal } },
    { actions with restore_normal_operations := true })

/-- The `SafetyManager::force_safe_mode` (`src/safety.rs:422-428`). -/
def force_safe_mode (mgr : SafetyManager) (current_time : Nat) :
    SafetyManager × SafetyActions :=
  if mgr.state.safe_mode_active = false then
    enter_safe_mode mgr current_time SafetyActions.new
  else (mgr, SafetyActions.new)

/-- The `SafetyManager::disable_safe_mode` (`src/safety.rs:430-441`): exit if
active, then arm the 10-minute manual override. -/
def disable_safe_mode (mgr : SafetyManager) (current_time : Nat) :
    SafetyManager × SafetyActions :=
  let r :=
    if mgr.state.safe_mode_active then
      exit_safe_mode mgr current_time SafetyActions.new
    else (mgr, SafetyActions.new)
  ({ r.1 with state := { r.1.state with
      manual_override_active := true,
      manual_override_expires := current_time + 600000 } },
    r.2)

/-- The `SafetyManager::clear_safety_events` (`src/safety.rs:445-462`). -/
def clear_safety_events (mgr : SafetyManager) (force : Bool) :
    Except String SafetyManager :=
  if !force then .error "Safety event clearing requires force=true for safety"
  else
    .ok { mgr with
      event_history := mgr.event_history.map (fun e =>
        if !e.resolved then { e with resolved := true } else e)
      state := { mgr.state with
        safety_level := .Normal,
        active_events := 0 } }

/-- The subsystem snapshot data `SafetyManager::update_safety_state` reads
(`src/safety.rs:152-304`): the power/thermal/comms state fields consulted
by the safety rules plus each subsystem's `is_healthy()` flag. -/
structure SafetyInputs where
  battery_voltage_mv : Nat
  battery_current_ma : Int
  power_healthy : Bool
  core_temp_c : Int
  thermal_healthy : Bool
  link_up : Bool
  packet_loss_percent : Nat
  comms_healthy : Bool
deriving DecidableEq, Repr

/-- The `SafetyManager::check_power_safety` (`src/safety.rs:152-201`). -/
def check_power_safety (mgr : SafetyManager) (inp : SafetyInputs)
    (current_time : Nat) (actions : SafetyActions) :
    SafetyManager × SafetyActions :=
  let r :=
    if inp.battery_voltage_mv < 3200 then
      (record_event mgr .BatteryLow current_time .Critical .Power,
        { actions with enable_emergency_power_save := true })
    else if inp.battery_voltage_mv < 3400 then
      (record_event mgr .BatteryLow current_time .Warning .Power,
        { actions with enable_power_save := true })
    else (mgr, actions)
  let m :=
    if 1000 < inp.battery_current_ma.natAbs then
      record_event r.1 .BatteryVoltageUnstable current_time .Caution .Power
    else r.1
  let m :=
    if !inp.power_healthy then
      record_event m .PowerSystemFailure current_time .Critical .Power
    else m
  (m, r.2)

/-- The `SafetyManager::check_thermal_safety` (`src/safety.rs:203-265`). -/
def check_thermal_safety (mgr : SafetyManager) (inp : SafetyInputs)
    (current_time : Nat) (actions : SafetyActions) :
    SafetyManager × SafetyActions :=
  let r :=
    if 75 < inp.core_temp_c then
      (record_event mgr .TemperatureHigh current_time .Critical .Thermal,
        { actions with disable_heaters := true,
                       enable_emergency_power_save := true })
    else if 65 < inp.core_temp_c then
      (record_event mgr .TemperatureHigh current_time .Warning .Thermal,
        { actions with disable_heaters := true })
    else (mgr, actions)
  let r :=
    if inp.core_temp_c < -40 then
      (record_event r.1 .TemperatureLow current_time .Critical .Thermal,
        { r.2 with enable_emergency_heaters := true })
    else if inp.core_temp_c < -30 then
      (record_event r.1 .TemperatureLow current_time .Warning .Thermal,
        { r.2 with enable_heaters := true })
    else r
  let m :=
    if !inp.thermal_healthy then
      record_event r.1 .ThermalSystemFailure current_time .Critical .Thermal
    else r.1
  (m, r.2)

/-- The `SafetyManager::check_comms_safety` (`src/safety.rs:267-304`): records
events only; the `actions` argument is unused in the source. -/
def check_comms_safety (mgr : SafetyManager) (inp : SafetyInputs)
    (current_time : Nat) : SafetyManager :=
  let m :=
    if !inp.link_up then
      record_event mgr .CommsLinkLost current_time .Warning .Comms
    else mgr
  let m :=
    if 50 < inp.packet_loss_percent then
      record_event m .CommsLinkLost current_time .Caution .Comms
    else m
  if !inp.comms_healthy then
    record_event m .CommsSystemFailure current_time .Critical .Comms
  else m

/-- The `SafetyManager::reset_watchdog` (`src/safety.rs:405-408`). -/
def reset_watchdog (mgr : SafetyManager) (current_time : Nat) : SafetyManager :=
  { mgr with
    watchdog_last_reset := current_time
    state := { mgr.state with last_watchdog_reset := current_time } }

/-- Steps 1–2 of `SafetyManager::update_safety_state`
(`src/safety.rs:117-125`): watchdog reset and the three subsystem checks. -/
def run_checks (mgr : SafetyManager) (current_time : Nat)
    (inp : SafetyInputs) : SafetyManager × SafetyActions :=
  let m :=
    if mgr.state.watchdog_enabled then reset_watchdog mgr current_time else mgr
  let r := check_power_safety m inp current_time SafetyActions.new
  let r := check_thermal_safety r.1 inp current_time r.2
  (check_comms_safety r.1 inp current_time, r.2)

/-- Step 4 of `SafetyManager::update_safety_state`
(`src/safety.rs:131-133`): clear an expired manual override. -/
def apply_override_expiry (mgr : SafetyManager) (current_time : Nat) :
    SafetyManager :=
  if mgr.state.manual_override_active ∧
      mgr.state.manual_override_expires < current_time then
    { mgr with state := { mgr.state with manual_override_active := false } }
  else mgr

/-- Step 5 of `SafetyManager::update_safety_state`
(`src/safety.rs:136-142`): enter or exit safe mode. -/
def safe_mode_transition (mgr : SafetyManager) (current_time : Nat)
    (actions : SafetyActions) : SafetyManager × SafetyActions :=
  let should := should_enter_safe_mode mgr && !mgr.state.manual_override_active
  if should = true ∧ mgr.state.safe_mode_active = false then
    enter_safe_mode mgr current_time actions
  else if should = false ∧ mgr.state.safe_mode_active = true then
    exit_safe_mode mgr current_time actions
  else (mgr, actions)

/-- Final step of `SafetyManager::update_safety_state`
(`src/safety.rs:145-147`). -/
def update_uptime_safe (mgr : SafetyManager) (current_time : Nat) :
    SafetyManager :=
  if mgr.state.safe_mode_active then
    { mgr with state :=
        { mgr.state with system_uptime_safe_s := current_time / 1000 } }
  else mgr

/-- The `SafetyManager::update_safety_state` (`src/safety.rs:108-150`). -/
def update_safety_state (mgr : SafetyManager) (current_time : Nat)
    (inp : SafetyInputs) : SafetyManager × SafetyActions :=
  let r := run_checks mgr current_time inp
  let m := update_safety_level r.1
  let m := apply_override_expiry m current_time
  let r2 := safe_mode_transition m current_time r.2
  (update_uptime_safe r2.1 current_time, r2.2)

/-! ### Safety supervisor lemmas -/

theorem record_event_state (mgr : SafetyManager) (e : SafetyEvent) (t : Nat)
    (l : SafetyLevel) (s : SubsystemId) :
    (record_event mgr e t l s).state = mgr.state := by
  unfold record_event
  rcases hgo : recordEventGo e t l s mgr.event_history with _ | h <;> simp [hgo]

theorem recordEventGo_length (e : SafetyEvent) (t : Nat) (l : SafetyLevel)
    (s : SubsystemId) :
    ∀ (h h' : List SafetyEventRecord),
      recordEventGo e t l s h = some h' → h'.length = h.length := by
  intro h
  induction h with
  | nil => intro h' hh; simp [recordEventGo] at hh
  | cons x xs ih =>
    intro h' hh
    unfold recordEventGo at hh
    by_cases hc : x.event = e ∧ x.subsystem = s ∧ x.resolved = false
    · rw [if_pos hc] at hh
      cases hh
      simp
    · rw [if_neg hc] at hh
      rcases hgo : recordEventGo e t l s xs with _ | ys
      · rw [hgo] at hh; simp at hh
      · rw [hgo] at hh
        simp only [Option.map_some'] at hh
        cases hh
        simp [ih ys hgo]

theorem record_event_length (mgr : SafetyManager) (e : SafetyEvent) (t : Nat)
    (l : SafetyLevel) (s : SubsystemId)
    (hlen : mgr.event_history.length ≤ 32) :
    (record_event mgr e t l s).event_history.length ≤ 32 := by
  unfold record_event
  rcases hgo : recordEventGo e t l s mgr.event_history with _ | h'
  · simp only [hgo, MAX_SAFETY_EVENTS]
    have hd : (mgr.event_history.drop 1).length =
        mgr.event_history.length - 1 := List.length_drop 1 _
    by_cases hA : 32 ≤ mgr.event_history.length
    · rw [if_pos hA, if_pos (by omega)]
      simp only [List.length_append, List.length_singleton]
      omega
    · rw [if_neg hA, if_pos (by omega)]
      simp only [List.length_append, List.length_singleton]
      omega
  · simp only [hgo]
    rw [recordEventGo_length e t l s _ _ hgo]
    exact hlen

theorem check_power_safety_state (mgr : SafetyManager) (inp : SafetyInputs)
    (t : Nat) (a : SafetyActions) :
    (check_power_safety mgr inp t a).1.state = mgr.state := by
  unfold check_power_safety
  by_cases h1 : inp.battery_voltage_mv < 3200 <;>
    by_cases h2 : inp.battery_voltage_mv < 3400 <;>
    by_cases h3 : 1000 < inp.battery_current_ma.natAbs <;>
    cases hp : inp.power_healthy <;>
    simp [h1, h2, h3, hp, record_event_state]

theorem check_power_safety_length (mgr : SafetyManager) (inp : SafetyInputs)
    (t : Nat) (a : SafetyActions) (hlen : mgr.event_history.length ≤ 32) :
    (check_power_safety mgr inp t a).1.event_history.length ≤ 32 := by
  unfold check_power_safety
  by_cases h1 : inp.battery_voltage_mv < 3200 <;>
    by_cases h2 : inp.battery_voltage_mv < 3400 <;>
    by_cases h3 : 1000 < inp.battery_current_ma.natAbs <;>
    cases hp : inp.power_healthy <;>
    simp only [h1, h2, h3, hp, if_pos, if_neg, if_true, if_false,
      Bool.not_true, Bool.not_false, ite_true, ite_false] <;>
    repeat' (first
      | assumption
      | apply record_event_length)

theorem check_thermal_safety_state (mgr : SafetyManager) (inp : SafetyInputs)
    (t : Nat) (a : SafetyActions) :
    (check_thermal_safety mgr inp t a).1.state = mgr.state := by
  unfold check_thermal_safety
  by_cases h1 : 75 < inp.core_temp_c <;>
    by_cases h2 : 65 < inp.core_temp_c <;>
    by_cases h3 : inp.core_temp_c < -40 <;>
    by_cases h4 : inp.core_temp_c < -30 <;>
    cases hp : inp.thermal_healthy <;>
    simp [h1, h2, h3, h4, hp, record_event_state]

theorem check_thermal_safety_length (mgr : SafetyManager) (inp : SafetyInputs)
    (t : Nat) (a : SafetyActions) (hlen : mgr.event_history.length ≤ 32) :
    (check_thermal_safety mgr inp t a).1.event_history.length ≤ 32 := by
  unfold check_thermal_safety
  by_cases h1 : 75 < inp.core_temp_c <;>
    by_cases h2 : 65 < inp.core_temp_c <;>
    by_cases h3 : inp.core_temp_c < -40 <;>
    by_cases h4 : inp.core_temp_c < -30 <;>
    cases hp : inp.thermal_healthy <;>
    simp only [h1, h2, h3, h4, hp, if_pos, if_neg, if_true, if_false,
      Bool.not_true, Bool.not_false, ite_true, ite_false] <;>
    repeat' (first
      | assumption
      | apply record_event_length)

theorem check_comms_safety_state (mgr : SafetyManager) (inp : SafetyInputs)
    (t : Nat) :
    (check_comms_safety mgr inp t).state = mgr.state := by
  unfold check_comms_safety
  cases h1 : inp.link_up <;>
    by_cases h2 : 50 < inp.packet_loss_percent <;>
    cases h3 : inp.comms_healthy <;>
    simp [h1, h2, h3, record_event_state]

theorem check_comms_safety_length (mgr : SafetyManager) (inp : SafetyInputs)
    (t : Nat) (hlen : mgr.event_history.length ≤ 32) :
    (check_comms_safety mgr inp t).event_history.length ≤ 32 := by
  unfold check_comms_safety
  cases h1 : inp.link_up <;>
    by_cases h2 : 50 < inp.packet_loss_percent <;>
    cases h3 : inp.comms_healthy <;>
    simp only [h1, h2, h3, if_pos, if_neg, if_true, if_false,
      Bool.not_true, Bool.not_false, ite_true, ite_false] <;>
    repeat' (first
      | assumption
      | apply record_event_length)

theorem run_checks_state (mgr : SafetyManager) (t : Nat) (inp : SafetyInputs) :
    (run_checks mgr t inp).1.state.safe_mode_active =
        mgr.state.safe_mode_active ∧
    (run_checks mgr t inp).1.state.manual_override_active =
        mgr.state.manual_override_active ∧
    (run_checks mgr t inp).1.state.manual_override_expires =
        mgr.state.manual_override_expires := by
  unfold run_checks
  by_cases hw : mgr.state.watchdog_enabled = true <;>
    simp [hw, reset_watchdog, check_comms_safety_state,
      check_thermal_safety_state, check_power_safety_state]

theorem run_checks_length (mgr : SafetyManager) (t : Nat) (inp : SafetyInputs)
    (hlen : mgr.event_history.length ≤ 32) :
    (run_checks mgr t inp).1.event_history.length ≤ 32 := by
  unfold run_checks
  apply check_comms_safety_length
  apply check_thermal_safety_length
  apply check_power_safety_length
  by_cases hw : mgr.state.watchdog_enabled = true <;>
    simp [hw, reset_watchdog, hlen]

theorem update_safety_level_spec (mgr : SafetyManager) :
    (update_safety_level mgr).event_history = mgr.event_history ∧
    (update_safety_level mgr).state.safety_level =
      maxUnresolvedLevel mgr.event_history ∧
    (update_safety_level mgr).state.active_events =
      unresolvedCount mgr.event_history % 256 ∧
    (update_safety_level mgr).state.safe_mode_active =
      mgr.state.safe_mode_active ∧
    (update_safety_level mgr).state.manual_override_active =
      mgr.state.manual_override_active ∧
    (update_safety_level mgr).state.manual_override_expires =
      mgr.state.manual_override_expires := by
  simp [update_safety_level]

theorem apply_override_expiry_spec (mgr : SafetyManager) (t : Nat) :
    (apply_override_expiry mgr t).event_history = mgr.event_history ∧
    (apply_override_expiry mgr t).state.safe_mode_active =
      mgr.state.safe_mode_active ∧
    (apply_override_expiry mgr t).state.safety_level =
      mgr.state.safety_level ∧
    (apply_override_expiry mgr t).state.active_events =
      mgr.state.active_events ∧
    (apply_override_expiry mgr t).state.manual_override_expires =
      mgr.state.manual_override_expires := by
  unfold apply_override_expiry
  by_cases h : mgr.state.manual_override_active ∧
      mgr.state.manual_override_expires < t <;>
    simp [h]

theorem apply_override_expiry_keep (mgr : SafetyManager) (t : Nat)
    (h : t ≤ mgr.state.manual_override_expires) :
    apply_override_expiry mgr t = mgr := by
  unfold apply_override_expiry
  rw [if_neg]
  intro hc
  omega

theorem apply_override_expiry_clear (mgr : SafetyManager) (t : Nat)
    (hov : mgr.state.manual_override_active = true)
    (h : mgr.state.manual_override_expires < t) :
    (apply_override_expiry mgr t).state.manual_override_active = false := by
  unfold apply_override_expiry
  rw [if_pos ⟨hov, h⟩]

theorem safe_mode_transition_override (m : SafetyManager) (t : Nat)
    (a : SafetyActions) :
    (safe_mode_transition m t a).1.state.manual_override_active =
        m.state.manual_override_active ∧
    (safe_mode_transition m t a).1.state.manual_override_expires =
        m.state.manual_override_expires := by
  simp only [safe_mode_transition]
  by_cases h1 : (should_enter_safe_mode m && !m.state.manual_override_active)
      = true ∧ m.state.safe_mode_active = false
  · rw [if_pos h1]
    unfold enter_safe_mode
    simp [record_event_state]
  · rw [if_neg h1]
    by_cases h2 : (should_enter_safe_mode m && !m.state.manual_override_active)
        = false ∧ m.state.safe_mode_active = true
    · rw [if_pos h2]
      unfold exit_safe_mode
      simp
    · rw [if_neg h2]
      simp

theorem safe_mode_transition_suppressed (m : SafetyManager) (t : Nat)
    (a : SafetyActions)
    (hov : m.state.manual_override_active = true)
    (hfl : m.state.safe_mode_active = false) :
    safe_mode_transition m t a = (m, a) := by
  unfold safe_mode_transition
  rw [hov]
  simp [hfl]

theorem safe_mode_transition_eq_of_flag (m : SafetyManager) (t : Nat)
    (a : SafetyActions)
    (h : (safe_mode_transition m t a).1.state.safe_mode_active =
      m.state.safe_mode_active) :
    (safe_mode_transition m t a).1 = m := by
  unfold safe_mode_transition at h ⊢
  by_cases h1 : (should_enter_safe_mode m && !m.state.manual_override_active)
      = true ∧ m.state.safe_mode_active = false
  · exfalso
    rw [if_pos h1] at h
    unfold enter_safe_mode at h
    rw [record_event_state] at h
    simp only at h
    rw [h1.2] at h
    simp at h
  · rw [if_neg h1] at h ⊢
    by_cases h2 : (should_enter_safe_mode m && !m.state.manual_override_active)
        = false ∧ m.state.safe_mode_active = true
    · exfalso
      rw [if_pos h2] at h
      unfold exit_safe_mode at h
      simp only at h
      rw [h2.2] at h
      simp at h
    · rw [if_neg h2]

theorem update_uptime_safe_spec (m : SafetyManager) (t : Nat) :
    (update_uptime_safe m t).event_history = m.event_history ∧
    (update_uptime_safe m t).state.safe_mode_active =
      m.state.safe_mode_active ∧
    (update_uptime_safe m t).state.safety_level = m.state.safety_level ∧
    (update_uptime_safe m t).state.active_events = m.state.active_events ∧
    (update_uptime_safe m t).state.manual_override_active =
      m.state.manual_override_active ∧
    (update_uptime_safe m t).state.manual_override_expires =
      m.state.manual_override_expires := by
  unfold update_uptime_safe
  by_cases h : m.state.safe_mode_active = true <;> simp [h]

/-! ### Claim C7 -/

/-- The safety manager obtained by forcing safe mode on a fresh manager. -/
def forcedFreshManager : SafetyManager := (force_safe_mode SafetyManager.new 0).1

/-- Counterexample for C7 as stated: `force_safe_mode` on a fresh manager
records an unresolved `SystemOverload`/`Emergency` event but leaves the
cached `safety_level` at `Normal` and `active_events` at 0, so the claimed
invariant fails right after this supervisor operation. -/
theorem safety_level_stale_after_force :
    forcedFreshManager.state.active_events = 0 ∧
    forcedFreshManager.state.safety_level = .Normal ∧
    unresolvedCount forcedFreshManager.event_history = 1 ∧
    maxUnresolvedLevel forcedFreshManager.event_history = .Emergency := by
  decide

/-- C7 (amended): after an `update_safety_state` call that performs no
safe-mode transition (the flag is unchanged), the cached `safety_level`
equals the maximum level over unresolved events in the final history
(`Normal` if none) and `active_events` equals the unresolved count.  The
transition paths, `force_safe_mode` and `disable_safe_mode` can leave the
cached fields stale until the next update's recompute step. -/
theorem safety_level_consistent_after_update (mgr : SafetyManager) (now : Nat)
    (inp : SafetyInputs) (hlen : mgr.event_history.length ≤ 32)
    (hsame : (update_safety_state mgr now inp).1.state.safe_mode_active =
      mgr.state.safe_mode_active) :
    (update_safety_state mgr now inp).1.state.safety_level =
      maxUnresolvedLevel (update_safety_state mgr now inp).1.event_history ∧
    (update_safety_state mgr now inp).1.state.active_events =
      unresolvedCount (update_safety_state mgr now inp).1.event_history := by
  simp only [update_safety_state] at hsame ⊢
  obtain ⟨hrc_f, hrc_o, hrc_e⟩ := run_checks_state mgr now inp
  obtain ⟨hul_h, hul_l, hul_a, hul_f, hul_o, hul_e⟩ :=
    update_safety_level_spec (run_checks mgr now inp).1
  obtain ⟨hoe_h, hoe_f, hoe_l, hoe_a, hoe_e⟩ :=
    apply_override_expiry_spec
      (update_safety_level (run_checks mgr now inp).1) now
  obtain ⟨hup_h, hup_f, hup_l, hup_a, hup_o, hup_e⟩ :=
    update_uptime_safe_spec
      (safe_mode_transition
        (apply_override_expiry
          (update_safety_level (run_checks mgr now inp).1) now)
        now (run_checks mgr now inp).2).1 now
  have hflag3 : (apply_override_expiry
      (update_safety_level (run_checks mgr now inp).1) now).state.safe_mode_active
      = mgr.state.safe_mode_active := by rw [hoe_f, hul_f, hrc_f]
  have htr : (safe_mode_transition
      (apply_override_expiry
        (update_safety_level (run_checks mgr now inp).1) now)
      now (run_checks mgr now inp).2).1 =
      apply_override_expiry
        (update_safety_level (run_checks mgr now inp).1) now := by
    apply safe_mode_transition_eq_of_flag
    rw [hflag3]
    rw [hup_f] at hsame
    exact hsame
  constructor
  · rw [hup_l, hup_h, htr, hoe_l, hoe_h, hul_l, hul_h]
  · rw [hup_a, hup_h, htr, hoe_a, hoe_h, hul_a, hul_h]
    have hlen1 : (run_checks mgr now inp).1.event_history.length ≤ 32 :=
      run_checks_length mgr now inp hlen
    have hcnt : unresolvedCount (run_checks mgr now inp).1.event_history ≤ 32 :=
      le_trans (List.length_filter_le _ _) hlen1
    exact Nat.mod_eq_of_lt (by omega)

/-- Nominal subsystem snapshots: no safety rule fires. -/
def nominalInputs : SafetyInputs := ⟨3700, 0, true, 20, true, true, 0, true⟩

/-- Witness for C7 (amended) on a fresh manager with nominal inputs. -/
theorem safety_level_consistent_after_update_witness :
    (update_safety_state SafetyManager.new 1000 nominalInputs).1.state.safety_level
      = maxUnresolvedLevel
          (update_safety_state SafetyManager.new 1000
            nominalInputs).1.event_history ∧
    (update_safety_state SafetyManager.new 1000 nominalInputs).1.state.active_events
      = unresolvedCount
          (update_safety_state SafetyManager.new 1000
            nominalInputs).1.event_history :=
  safety_level_consistent_after_update SafetyManager.new 1000 nominalInputs
    (by decide) (by decide)

/-! ### Claim C8 -/

/-- C8: `disable_safe_mode(t)` exits safe mode and arms the manual
override with expiry `t + 600_000`.  From any state with the override
armed at that expiry and safe mode off, every supervisor update at
`t' ≤ t + 600_000` keeps safe mode off (suppressing autonomous entry even
when the inputs raise Critical/Emergency events) and keeps the override
armed with the same expiry; an update at `t' > t + 600_000` clears the
override, making autonomous entry possible again. -/
theorem manual_override_window (mgr : SafetyManager) (t : Nat) :
    ((disable_safe_mode mgr t).1.state.manual_override_active = true ∧
     (disable_safe_mode mgr t).1.state.manual_override_expires = t + 600000 ∧
     (disable_safe_mode mgr t).1.state.safe_mode_active = false) ∧
    (∀ (m : SafetyManager) (t' : Nat) (inp : SafetyInputs),
      m.state.manual_override_active = true →
      m.state.manual_override_expires = t + 600000 →
      m.state.safe_mode_active = false →
      ((t' ≤ t + 600000 →
        (update_safety_state m t' inp).1.state.safe_mode_active = false ∧
        (update_safety_state m t' inp).1.state.manual_override_active = true ∧
        (update_safety_state m t' inp).1.state.manual_override_expires =
          t + 600000) ∧
       (t + 600000 < t' →
        (update_safety_state m t' inp).1.state.manual_override_active =
          false))) := by
  constructor
  · cases hf : mgr.state.safe_mode_active <;>
      simp [disable_safe_mode, exit_safe_mode, hf]
  · intro m t' inp hov hexp hfl
    simp only [update_safety_state]
    obtain ⟨hrc_f, hrc_o, hrc_e⟩ := run_checks_state m t' inp
    obtain ⟨hul_h, hul_l, hul_a, hul_f, hul_o, hul_e⟩ :=
      update_safety_level_spec (run_checks m t' inp).1
    have hm2e : (update_safety_level (run_checks m t' inp).1).state.manual_override_expires
        = t + 600000 := by rw [hul_e, hrc_e, hexp]
    have hm2o : (update_safety_level (run_checks m t' inp).1).state.manual_override_active
        = true := by rw [hul_o, hrc_o, hov]
    have hm2f : (update_safety_level (run_checks m t' inp).1).state.safe_mode_active
        = false := by rw [hul_f, hrc_f, hfl]
    constructor
    · intro ht'
      have hoe : apply_override_expiry
          (update_safety_level (run_checks m t' inp).1) t' =
          update_safety_level (run_checks m t' inp).1 :=
        apply_override_expiry_keep _ t' (by rw [hm2e]; exact ht')
      rw [hoe]
      simp only [safe_mode_transition_suppressed _ t' _ hm2o hm2f]
      obtain ⟨hup_h, hup_f, hup_l, hup_a, hup_o, hup_e⟩ :=
        update_uptime_safe_spec (update_safety_level (run_checks m t' inp).1) t'
      exact ⟨by rw [hup_f, hm2f], by rw [hup_o, hm2o], by rw [hup_e, hm2e]⟩
    · intro ht'
      have hcl : (apply_override_expiry
          (update_safety_level (run_checks m t' inp).1) t').state.manual_override_active
          = false :=
        apply_override_expiry_clear _ t' hm2o (by rw [hm2e]; exact ht')
      obtain ⟨htr_o, htr_e⟩ :=
        safe_mode_transition_override
          (apply_override_expiry
            (update_safety_level (run_checks m t' inp).1) t')
          t' (run_checks m t' inp).2
      obtain ⟨hup_h, hup_f, hup_l, hup_a, hup_o, hup_e⟩ :=
        update_uptime_safe_spec
          (safe_mode_transition
            (apply_override_expiry
              (update_safety_level (run_checks m t' inp).1) t')
            t' (run_checks m t' inp).2).1 t'
      rw [hup_o, htr_o, hcl]

/-- A manager with one unresolved Critical event. -/
def criticalEventManager : SafetyManager :=
  record_event SafetyManager.new .BatteryLow 0 .Critical .Power

/-- The same manager right after `disable_safe_mode` at `t = 5`. -/
def overrideArmedManager : SafetyManager :=
  (disable_safe_mode criticalEventManager 5).1

/-- Subsystem snapshots with a critically low battery. -/
def lowBatteryInputs : SafetyInputs := ⟨3000, 0, true, 20, true, true, 0, true⟩

/-- Witness for C8: with the override armed at `t = 5`, an update at the
window edge `t' = 600005` under critical inputs keeps safe mode off, and
an update at `t' = 600006` clears the override. -/
theorem manual_override_window_witness :
    (update_safety_state overrideArmedManager 600005
        lowBatteryInputs).1.state.safe_mode_active = false ∧
    (update_safety_state overrideArmedManager 600006
        lowBatteryInputs).1.state.manual_override_active = false :=
  ⟨(((manual_override_window criticalEventManager 5).2 overrideArmedManager
      600005 lowBatteryInputs (by decide) (by decide) (by decide)).1
      (by decide)).1,
   ((manual_override_window criticalEventManager 5).2 overrideArmedManager
      600006 lowBatteryInputs (by decide) (by decide) (by decide)).2
      (by decide)⟩

/-! ## Power subsystem (src/subsystems/power.rs) -/

/-- The `PowerState` from `src/subsystems/power.rs`. -/
structure PowerState where
  battery_voltage_mv : Nat
  battery_current_ma : Int
  solar_voltage_mv : Nat
  solar_current_ma : Nat
  charging : Bool
  battery_level_percent : Nat
  power_draw_mw : Nat
deriving DecidableEq, Repr

/-- The `PowerSystem` from `src/subsystems/power.rs` (the dead
`last_update_ms` field is omitted). -/
structure PowerSystem where
  state : PowerState
  solar_enabled : Bool
  power_save_mode : Bool
  fault_state : Option FaultType
  internal_resistance_mohm : Nat
deriving DecidableEq, Repr

/-- The `NOMINAL_VOLTAGE` (`src/subsystems/power.rs:4`). -/
def NOMINAL_VOLTAGE : Nat := 3700

/-- The `CRITICAL_VOLTAGE` (`src/subsystems/power.rs:5`). -/
def CRITICAL_VOLTAGE : Nat := 3200

/-- The `MAX_VOLTAGE` (`src/subsystems/power.rs:6`). -/
def MAX_VOLTAGE : Nat := 4200

/-- The `VOLTAGE_TOLERANCE` (`src/subsystems/power.rs:7`). -/
def VOLTAGE_TOLERANCE : Nat := 50

/-- The `NOMINAL_CURRENT_MA` (`src/subsystems/power.rs:9`). -/
def NOMINAL_CURRENT_MA : Nat := 500

/-- The `PowerSystem::new` (`src/subsystems/power.rs:44-62`). -/
def PowerSystem.new : PowerSystem :=
  { state :=
      { battery_voltage_mv := NOMINAL_VOLTAGE
        battery_current_ma := -(NOMINAL_CURRENT_MA : Int)
        solar_voltage_mv := 0
        solar_current_ma := 0
        charging := false
        battery_level_percent := 85
        power_draw_mw := NOMINAL_VOLTAGE * NOMINAL_CURRENT_MA / 1000 }
    solar_enabled := true
    power_save_mode := false
    fault_state := none
    internal_resistance_mohm := 100 }

/-- Rust `u16 as i16` (two's-complement reinterpretation). -/
def i16ofU16 (n : Nat) : Int :=
  if n < 32768 then (n : Int) else (n : Int) - 65536

/-- Wrapping to `i16` range (release-mode overflow semantics of `i16`
addition and subtraction). -/
def i16wrap (x : Int) : Int := (x + 32768) % 65536 - 32768

/-- The `PowerSystem::simulate_solar_input` (`src/subsystems/power.rs:71-84`).
The orbital-efficiency computation is `f32`-based; its two `as u16` results
are abstracted as the parameters `solar_v`/`solar_c`, which range over all
`u16` values. -/
def simulate_solar_input (ps : PowerSystem) (solar_v solar_c : Nat) :
    PowerSystem :=
  if ps.solar_enabled = false then
    { ps with state :=
        { ps.state with solar_voltage_mv := 0, solar_current_ma := 0 } }
  else
    { ps with state :=
        { ps.state with solar_voltage_mv := solar_v,
                        solar_current_ma := solar_c } }

/-- The `PowerSystem::update_battery_state` (`src/subsystems/power.rs:86-155`).
The `f32` smoothing step (`voltage_delta`, `target_voltage`,
`voltage_diff`, `voltage_change`) collapses into the `voltage_change`
parameter: a Rust `f32 as i16` cast saturates into the `i16` range, so the
parameter ranges over all integers a fortiori.  The voltage update clamps
`battery_voltage_mv as i16 + voltage_change` into `[0, MAX_VOLTAGE]`
before the fault checks. -/
def update_battery_state (ps : PowerSystem) (voltage_change : Int) :
    PowerSystem × Option FaultType :=
  let load_current : Nat :=
    if ps.power_save_mode then NOMINAL_CURRENT_MA / 2 else NOMINAL_CURRENT_MA
  let net_current : Int :=
    i16wrap (i16ofU16 ps.state.solar_current_ma - (load_current : Int))
  let new_v : Nat :=
    (min (max (i16wrap (i16ofU16 ps.state.battery_voltage_mv + voltage_change))
      0) (MAX_VOLTAGE : Int)).toNat
  let level : Nat := min ((new_v - CRITICAL_VOLTAGE) * 100 /
    (MAX_VOLTAGE - CRITICAL_VOLTAGE)) 100
  let draw : Nat := new_v * load_current / 1000 % 65536
  let ps' : PowerSystem :=
    { ps with state :=
        { ps.state with
          battery_current_ma := net_current
          charging := decide (0 < net_current)
          battery_voltage_mv := new_v
          battery_level_percent := level
          power_draw_mw := draw } }
  if new_v < CRITICAL_VOLTAGE then (ps', some .Failed)
  else if MAX_VOLTAGE + VOLTAGE_TOLERANCE < new_v then (ps', some .Degraded)
  else (ps', none)

/-- The `PowerSystem::update` (`src/subsystems/power.rs:162-180`): `Failed` and
`Offline` fault states return immediately; `Degraded` doubles the internal
resistance and continues; then solar simulation and battery integration. -/
def power_update (ps : PowerSystem) (solar_v solar_c : Nat)
    (voltage_change : Int) : PowerSystem × Option FaultType :=
  match ps.fault_state with
  | some .Failed => (ps, some .Failed)
  | some .Offline => (ps, some .Offline)
  | some .Degraded =>
    update_battery_state
      (simulate_solar_input { ps with internal_resistance_mohm := 200 }
        solar_v solar_c)
      voltage_change
  | none =>
    update_battery_state (simulate_solar_input ps solar_v solar_c)
      voltage_change

/-! ### Claim C9 -/

theorem update_battery_state_clamped (ps : PowerSystem) (vch : Int) :
    (update_battery_state ps vch).1.state.battery_voltage_mv ≤ 4200 ∧
    (update_battery_state ps vch).2 ≠ some .Degraded := by
  unfold update_battery_state
  have hv : (min (max (i16wrap (i16ofU16 ps.state.battery_voltage_mv + vch))
      0) ((MAX_VOLTAGE : Nat) : Int)).toNat ≤ 4200 := by
    have h1 : min (max (i16wrap (i16ofU16 ps.state.battery_voltage_mv + vch))
        0) ((MAX_VOLTAGE : Nat) : Int) ≤ ((MAX_VOLTAGE : Nat) : Int) :=
      min_le_right _ _
    have h2 := Int.toNat_le_toNat h1
    unfold MAX_VOLTAGE at h2 ⊢
    omega
  by_cases hc : (min (max (i16wrap (i16ofU16 ps.state.battery_voltage_mv + vch))
      0) ((MAX_VOLTAGE : Nat) : Int)).toNat < CRITICAL_VOLTAGE
  · rw [if_pos hc]
    exact ⟨hv, by simp⟩
  · rw [if_neg hc, if_neg (by unfold MAX_VOLTAGE VOLTAGE_TOLERANCE; omega)]
    exact ⟨hv, by simp⟩

/-- C9: for every power-system state and every value of the abstracted
floating-point quantities, `PowerSystem::update` never returns
`Err(Degraded)` — the integration clamps `battery_voltage_mv` to at most
`MAX_VOLTAGE = 4200` before the over-voltage check
(`v > MAX_VOLTAGE + 50`), making that branch unreachable — and any state
with `battery_voltage_mv ≤ 4200` (all reachable states, since `new` starts
at 3700) still satisfies the bound after the update. -/
theorem power_update_never_degraded (ps : PowerSystem) (solar_v solar_c : Nat)
    (vch : Int) :
    (power_update ps solar_v solar_c vch).2 ≠ some .Degraded ∧
    (ps.state.battery_voltage_mv ≤ 4200 →
      (power_update ps solar_v solar_c vch).1.state.battery_voltage_mv
        ≤ 4200) := by
  obtain ⟨st, se, pm, fs, ir⟩ := ps
  rcases fs with _ | f
  · have h := update_battery_state_clamped
      (simulate_solar_input ⟨st, se, pm, none, ir⟩ solar_v solar_c) vch
    exact ⟨h.2, fun _ => h.1⟩
  · cases f
    · have h := update_battery_state_clamped
        (simulate_solar_input ⟨st, se, pm, some .Degraded, 200⟩
          solar_v solar_c) vch
      exact ⟨h.2, fun _ => h.1⟩
    · exact ⟨by simp [power_update], fun h => h⟩
    · exact ⟨by simp [power_update], fun h => h⟩

/-- Witness for C9 at the initial power state with concrete abstracted
solar/smoothing values. -/
theorem power_update_never_degraded_witness :
    PowerSystem.new.state.battery_voltage_mv ≤ 4200 ∧
    ((power_update PowerSystem.new 4200 800 1000).2 ≠ some .Degraded ∧
     (power_update PowerSystem.new 4200 800 1000).1.state.battery_voltage_mv
        ≤ 4200) :=
  ⟨by decide,
   (power_update_never_degraded PowerSystem.new 4200 800 1000).1,
   (power_update_never_degraded PowerSystem.new 4200 800 1000).2 (by decide)⟩

/-! ## Telemetry batcher and collector (src/telemetry.rs) -/

/-- The `TelemetryPacket` (`src/protocol.rs:67-84`), reduced to the fields the
telemetry claims inspect: the timestamp, the batcher-assigned sequence
number, the `system_state.safe_mode` flag and the `faults` list.  The
remaining payload (subsystem snapshots, diagnostics, padding, …) is
carried opaquely by the real packet and read by no claim. -/
structure TelemetryPacket where
  timestamp : Nat
  sequence_number : Nat
  safe_mode : Bool
  faults : List Fault
deriving DecidableEq, Repr

/-- The `SequencedTelemetryPacket` (`src/telemetry.rs:17-24`). -/
structure SequencedTelemetryPacket where
  packet : TelemetryPacket
  priority : Nat
  batch_id : Nat
  created_at : Nat
  retransmit_count : Nat
deriving DecidableEq, Repr

/-- The `TelemetryBatch` (`src/telemetry.rs:26-36`). -/
structure TelemetryBatch where
  batch_id : Nat
  sequence_start : Nat
  sequence_end : Nat
  packet_count : Nat
  created_at : Nat
  priority : Nat
  packets : List SequencedTelemetryPacket
  checksum : Nat
deriving DecidableEq, Repr

/-- The `MAX_BATCH_SIZE` (`src/telemetry.rs:10`). -/
def MAX_BATCH_SIZE : Nat := 8

/-- The `BATCH_TIMEOUT_MS` (`src/telemetry.rs:11`). -/
def BATCH_TIMEOUT_MS : Nat := 5000

/-- The `MAX_SEQUENCE_NUMBER` (`src/telemetry.rs:12`). -/
def MAX_SEQUENCE_NUMBER : Nat := 65535

/-- The `TELEMETRY_PRIORITY_HIGH` (`src/telemetry.rs:13`). -/
def TELEMETRY_PRIORITY_HIGH : Nat := 1

/-- The `TELEMETRY_PRIORITY_NORMAL` (`src/telemetry.rs:14`). -/
def TELEMETRY_PRIORITY_NORMAL : Nat := 2

/-- The `TELEMETRY_PRIORITY_LOW` (`src/telemetry.rs:15`). -/
def TELEMETRY_PRIORITY_LOW : Nat := 3

/-- The `TelemetryBatch::new` (`src/telemetry.rs:39-50`). -/
def TelemetryBatch.new (batch_id priority created_at : Nat) : TelemetryBatch :=
  ⟨batch_id, 0, 0, 0, created_at, priority, [], 0⟩

/-- The `TelemetryBatch::is_full` (`src/telemetry.rs:75-77`). -/
def TelemetryBatch.is_full (b : TelemetryBatch) : Bool :=
  decide (MAX_BATCH_SIZE ≤ b.packets.length)

/-- The `TelemetryBatch::is_expired` (`src/telemetry.rs:79-81`). -/
def TelemetryBatch.is_expired (b : TelemetryBatch) (current_time : Nat) : Bool :=
  decide (b.created_at + BATCH_TIMEOUT_MS < current_time)

/-- The `TelemetryBatch::add_packet` (`src/telemetry.rs:52-73`): stamp the
batch id onto the packet, update the sequence range and the XOR checksum
(a `u32`; sequence numbers stay below `2^16` so no truncation occurs). -/
def TelemetryBatch.add_packet (b : TelemetryBatch)
    (p : SequencedTelemetryPacket) : Except String TelemetryBatch :=
  if MAX_BATCH_SIZE ≤ b.packets.length then .error "Batch is full"
  else
    let p := { p with batch_id := b.batch_id }
    let seq_start :=
      if b.packet_count = 0 then p.packet.sequence_number else b.sequence_start
    let seq_end := p.packet.sequence_number
    let packets := b.packets ++ [p]
    .ok { b with
      sequence_start := seq_start
      sequence_end := seq_end
      packets := packets
      packet_count := packets.length
      checksum := Nat.xor b.checksum seq_end }

/-- The `TelemetryBatcher` (`src/telemetry.rs:89-96`) with the two batching
statistics counters that `queue_packet`/`finalize_current_batch` touch. -/
structure TelemetryBatcher where
  current_batch : Option TelemetryBatch
  completed_batches : List TelemetryBatch
  next_batch_id : Nat
  sequence_number : Nat
  total_packets_batched : Nat
  total_batches_created : Nat
deriving DecidableEq, Repr

/-- The `TelemetryBatcher::new` (`src/telemetry.rs:108-117`). -/
def TelemetryBatcher.new : TelemetryBatcher := ⟨none, [], 1, 1, 0, 0⟩

/-- The `TelemetryBatcher::finalize_current_batch` (`src/telemetry.rs:150-162`):
move a non-empty current batch to the 16-entry completed list, evicting
the oldest completed batch on overflow. -/
def TelemetryBatcher.finalize_current_batch (b : TelemetryBatcher) :
    TelemetryBatcher :=
  match b.current_batch with
  | none => b
  | some batch =>
    if 0 < batch.packet_count then
      let completed :=
        if 16 ≤ b.completed_batches.length then b.completed_batches.drop 1
        else b.completed_batches
      { b with
        current_batch := none
        completed_batches := completed ++ [batch]
        total_batches_created := b.total_batches_created + 1 }
    else { b with current_batch := none }

/-- The `TelemetryBatcher::start_new_batch` (`src/telemetry.rs:200-203`). -/
def TelemetryBatcher.start_new_batch (b : TelemetryBatcher)
    (priority current_time : Nat) : TelemetryBatcher :=
  { b with
    current_batch := some (TelemetryBatch.new b.next_batch_id priority
      current_time)
    next_batch_id := (b.next_batch_id + 1) % 2 ^ 32 }

/-- The `TelemetryBatcher::queue_packet` (`src/telemetry.rs:119-148`): assign
the next sequence number (wrapping 65535 → 1), start a new batch only when
there is no current batch, the current batch is full, or the current batch
has expired — the source performs NO priority comparison here — then add
the packet to the current batch. -/
def TelemetryBatcher.queue_packet (b : TelemetryBatcher)
    (packet : TelemetryPacket) (priority current_time : Nat) :
    Except String TelemetryBatcher :=
  let sp : SequencedTelemetryPacket :=
    { packet := { packet with sequence_number := b.sequence_number }
      priority := priority
      batch_id := 0
      created_at := current_time
      retransmit_count := 0 }
  let b := { b with sequence_number := b.sequence_number % MAX_SEQUENCE_NUMBER + 1 }
  let needNew :=
    match b.current_batch with
    | none => true
    | some cur => cur.is_full || cur.is_expired current_time
  let b :=
    if needNew then
      (b.finalize_current_batch).start_new_batch priority current_time
    else b
  match b.current_batch with
  | some cur =>
    match cur.add_packet sp with
    | .error e => .error e
    | .ok cur' =>
      .ok { b with
        current_batch := some cur'
        total_packets_batched := b.total_packets_batched + 1 }
  | none => .ok b

/-- The `telemetry_rate_hz`, collection bookkeeping and the protocol handler's
sequence counter of `TelemetryCollector` (`src/telemetry.rs:225-247`,
`src/protocol.rs:227`): the fields driving `should_collect` and packet
assembly.  Serialization buffers and the 128-entry packet ring are not
read by any claim and are omitted. -/
structure TelemetryCollector where
  sequence_counter : Nat
  telemetry_rate_hz : Nat
  last_collection_time : Nat
  packet_counter : Nat
  batcher : TelemetryBatcher
deriving DecidableEq, Repr

/-- The `TelemetryCollector::new` (`src/telemetry.rs:268-284`) with
`DEFAULT_TELEMETRY_RATE_HZ = 1`. -/
def TelemetryCollector.new : TelemetryCollector := ⟨0, 1, 0, 0, .new⟩

/-- The `TelemetryCollector::should_collect` (`src/telemetry.rs:290-293`). -/
def should_collect (col : TelemetryCollector) (current_time : Nat) : Bool :=
  decide (col.last_collection_time + 1000 / col.telemetry_rate_hz ≤ current_time)

/-- The priority rule of `TelemetryCollector::collect_telemetry`
(`src/telemetry.rs:361-368`). -/
def telemetry_priority (safe_mode : Bool) (faults : List Fault)
    (uptime_seconds : Nat) : Nat :=
  if safe_mode || !faults.isEmpty then TELEMETRY_PRIORITY_HIGH
  else if uptime_seconds < 300 then TELEMETRY_PRIORITY_LOW
  else TELEMETRY_PRIORITY_NORMAL

/-- The `TelemetryCollector::collect_telemetry` (`src/telemetry.rs:295-389`):
when due, assemble a packet via
`ProtocolHandler::create_telemetry_packet` (which advances the wrapping
`u32` sequence counter, stamps its fake timestamp `counter * 1000`, and
stores the CALLER-SUPPLIED fault list in `faults`), compute the priority,
and queue the packet into the batcher.  JSON serialization (assumed to
succeed) and the packet ring are omitted. -/
def collect_telemetry (col : TelemetryCollector)
    (current_time uptime_seconds : Nat) (safe_mode : Bool)
    (faults : List Fault) :
    Except String (Option TelemetryPacket × TelemetryCollector) :=
  if should_collect col current_time = false then .ok (none, col)
  else
    let seq := (col.sequence_counter + 1) % 2 ^ 32
    let packet : TelemetryPacket :=
      { timestamp := seq * 1000
        sequence_number := seq
        safe_mode := safe_mode
        faults := faults }
    let priority := telemetry_priority safe_mode faults uptime_seconds
    match col.batcher.queue_packet packet priority current_time with
    | .error e => .error e
    | .ok batcher' =>
      .ok (some packet,
        { col with
          sequence_counter := seq
          batcher := batcher'
          last_collection_time := current_time
          packet_counter := (col.packet_counter + 1) % 2 ^ 32 })

/-- The `SatelliteAgent::generate_telemetry` (`src/agent.rs:573-597`): the
agent constructs `empty_faults: &[Fault] = &[]` and passes it to
`collect_telemetry` regardless of the subsystems' fault state — the three
fault-state parameters are carried to show the independence. -/
def generate_telemetry (col : TelemetryCollector)
    (current_time uptime_seconds : Nat) (safe_mode : Bool)
    (_power_fault _thermal_fault _comms_fault : Option FaultType) :
    Except String (Option TelemetryPacket × TelemetryCollector) :=
  collect_telemetry col current_time uptime_seconds safe_mode []

/-! ### Claim C5 -/

/-- A minimal telemetry packet stamped with a timestamp. -/
def tinyPacket (ts : Nat) : TelemetryPacket := ⟨ts, 0, false, []⟩

/-- The batcher state after queueing a HIGH-priority and then a
NORMAL-priority packet at the same instant. -/
def batcherAfterTwoPriorities : Except String TelemetryBatcher :=
  (TelemetryBatcher.new.queue_packet (tinyPacket 1) TELEMETRY_PRIORITY_HIGH
    1000).bind
    (fun b => b.queue_packet (tinyPacket 2) TELEMETRY_PRIORITY_NORMAL 1000)

/-- C5: `TelemetryBatcher::queue_packet` starts a new batch only when the
current batch is absent, full, or expired — it never compares priorities —
so a NORMAL-priority packet queued after a HIGH-priority packet lands in
the same (HIGH-priority) batch, contradicting the spec's rule (d) and the
intent documented in `tests/telemetry_batching_tests.rs:122`.  Evaluated at
the failing input: after the two calls, the single current batch has
priority HIGH and holds packets of priorities [HIGH, NORMAL]; no batch was
finalized in between. -/
theorem batch_mixes_priorities :
    batcherAfterTwoPriorities.map
        (fun b => (b.current_batch.map
          (fun cur => (cur.priority, cur.packets.map (·.priority))),
          b.completed_batches.length)) =
      .ok (some (TELEMETRY_PRIORITY_HIGH,
        [TELEMETRY_PRIORITY_HIGH, TELEMETRY_PRIORITY_NORMAL]), 0) := by
  rfl

/-! ### Claim C4 -/

/-- C4 (amended): every telemetry packet the agent's tick emits has an
EMPTY `faults` field — `generate_telemetry` always hands the collector an
empty fault list, whatever the subsystems' fault state — and with an empty
fault list the packet priority is HIGH exactly when safe mode is active. -/
theorem generate_telemetry_faults_empty (col : TelemetryCollector)
    (ct up : Nat) (sm : Bool) (pf tf cf : Option FaultType)
    (packet : TelemetryPacket) (col' : TelemetryCollector)
    (h : generate_telemetry col ct up sm pf tf cf = .ok (some packet, col')) :
    packet.faults = [] ∧
    (telemetry_priority sm [] up = TELEMETRY_PRIORITY_HIGH ↔ sm = true) := by
  constructor
  · unfold generate_telemetry collect_telemetry at h
    by_cases hsc : should_collect col ct = false
    · rw [if_pos hsc] at h
      simp at h
    · rw [if_neg hsc] at h
      simp only [] at h
      rcases hq : (col.batcher.queue_packet
          ⟨((col.sequence_counter + 1) % 2 ^ 32) * 1000,
            (col.sequence_counter + 1) % 2 ^ 32, sm, []⟩
          (telemetry_priority sm [] up) ct) with e | b'
      · rw [hq] at h
        simp at h
      · rw [hq] at h
        simp only [Except.ok.injEq, Prod.mk.injEq, Option.some.injEq] at h
        rw [← h.1]
  · cases sm <;>
      by_cases hu : up < 300 <;>
      simp [telemetry_priority, hu, TELEMETRY_PRIORITY_HIGH,
        TELEMETRY_PRIORITY_LOW, TELEMETRY_PRIORITY_NORMAL]

/-- Counterexample for C4 as stated: with a Power fault active
(`fault_state = Some(Failed)`), the packet emitted on a collection tick
has an empty `faults` field and the queued priority is NORMAL, not HIGH. -/
theorem telemetry_faults_dropped_counterexample :
    (generate_telemetry TelemetryCollector.new 1000 400 false
        (some FaultType.Failed) none none).map
        (fun r => (r.1.map (·.faults),
          r.2.batcher.current_batch.map (·.priority))) =
      .ok (some [], some TELEMETRY_PRIORITY_NORMAL) := by rfl

/-- The packet produced by the witness run below. -/
def demoPacket : TelemetryPacket := ⟨1000, 1, false, []⟩

/-- The collector state after the witness run below. -/
def demoCollector : TelemetryCollector :=
  ⟨1, 1, 1000, 1,
    ⟨some ⟨1, 1, 1, 1, 1000, 2, [⟨demoPacket, 2, 1, 1000, 0⟩], 1⟩,
      [], 2, 2, 1, 0⟩⟩

/-- Witness for C4 (amended) on a fresh collector with a Power fault
active. -/
theorem generate_telemetry_faults_empty_witness :
    demoPacket.faults = [] ∧
    (telemetry_priority false [] 400 = TELEMETRY_PRIORITY_HIGH ↔
      false = true) :=
  generate_telemetry_faults_empty TelemetryCollector.new 1000 400 false
    (some .Failed) none none demoPacket demoCollector (by rfl)

/-! ## Protocol command tracking and agent command execution
(src/protocol.rs, src/agent.rs) -/

/-- The `CommandTracker` from `src/protocol.rs:187-196`. -/
structure CommandTracker where
  command_id : Nat
  timestamp : Nat
  status : ResponseStatus
  execution_start_time : Option Nat
  timeout_ms : Nat
  retry_count : Nat
  last_update : Nat
deriving DecidableEq, Repr

/-- The `CommandTracker::new` (`src/protocol.rs:199-209`). -/
def CommandTracker.new (command_id timestamp timeout_ms : Nat) :
    CommandTracker :=
  ⟨command_id, timestamp, .Acknowledged, none, timeout_ms, 0, timestamp⟩

/-- The `CommandTracker::is_expired` (`src/protocol.rs:211-213`). -/
def CommandTracker.is_expired (tr : CommandTracker) (current_time : Nat) :
    Bool :=
  decide (tr.timestamp + tr.timeout_ms < current_time)

/-- The `MAX_TRACKED_COMMANDS` (`src/protocol.rs:185`). -/
def MAX_TRACKED_COMMANDS : Nat := 16

/-- The `ProtocolHandler::cleanup_expired_commands` (`src/protocol.rs:527-529`). -/
def cleanup_expired_commands_trk (l : List CommandTracker)
    (current_time : Nat) : List CommandTracker :=
  l.filter (fun tr => !tr.is_expired current_time)

/-- The `ProtocolHandler::track_command` (`src/protocol.rs:491-509`): clean up
expired trackers (a state mutation kept even on rejection), reject a
duplicate live id with `InvalidCommand`, and insert (with `swap_remove(0)`
eviction when the 16-entry ring is full).  Returns the new tracker list
and the error, if any. -/
def track_command (l : List CommandTracker) (command_id current_time
    timeout_ms : Nat) : List CommandTracker × Option ProtocolError :=
  let l := cleanup_expired_commands_trk l current_time
  if l.any (fun t => t.command_id = command_id) then
    (l, some .InvalidCommand)
  else
    let tr := CommandTracker.new command_id current_time timeout_ms
    if l.length < MAX_TRACKED_COMMANDS then (l ++ [tr], none)
    else (((l.getLastD tr) :: (l.drop 1).dropLast) ++ [tr], none)

/-- The `CommandTracker::update_status` applied through
`ProtocolHandler::update_command_status` (`src/protocol.rs:215-222`,
`512-519`): update the first tracker with the given id. -/
def update_command_status (command_id : Nat) (status : ResponseStatus)
    (current_time : Nat) : List CommandTracker → List CommandTracker
  | [] => []
  | t :: rest =>
    if t.command_id = command_id then
      { t with
        status := status
        last_update := current_time
        execution_start_time :=
          if status = .ExecutionStarted then some current_time
          else t.execution_start_time } :: rest
    else t :: update_command_status command_id status current_time rest

/-- The `ProtocolHandler::validate_command` (`src/protocol.rs:464-486`). -/
def validate_command (cmd : Command) : Except ProtocolError Unit :=
  if cmd.id = 0 then .error .InvalidCommand
  else
    match cmd.command_type with
    | .SetTxPower power_dbm =>
      if power_dbm < 0 ∨ 30 < power_dbm then .error .InvalidParameter
      else .ok ()
    | .TransmitMessage message =>
      if message.isEmpty then .error .InvalidParameter else .ok ()
    | _ => .ok ()

/-- The safe-mode allow-list of `SatelliteAgent::execute_command`
(`src/agent.rs:203-218`). -/
def allowed_in_safe_mode : CommandType → Bool
  | .Ping => true
  | .SystemStatus => true
  | .ClearFaults _ => true
  | .ClearSafetyEvents _ => true
  | .SetSafeMode _ => true
  | _ => false

/-- The slice of `SatelliteAgent` state that `execute_command` reads and
writes: the protocol handler's tracker list, the scheduler, and the safety
manager. -/
structure ExecEnv where
  tracked_commands : List CommandTracker
  scheduled_commands : List ScheduledCommand
  safety : SafetyManager
deriving DecidableEq, Repr

/-- The dispatch `match` of `SatelliteAgent::execute_command`
(`src/agent.rs:225-367`), producing the `response_status`.  The five arms
that pattern-match a subsystem's `execute_command` result
(`SetHeaterState`, `SetCommsLink`, `SetSolarPanel`, `SetTxPower`,
`TransmitMessage`) are abstracted by the `subOk` parameter (the
subsystem's `Ok`/`Err`), quantified over both values in every theorem;
the safety-manager arms are concrete. -/
def dispatch_status (env : ExecEnv) (now : Nat) (subOk : Bool) :
    CommandType → ResponseStatus × ExecEnv
  | .Ping => (.Success, env)
  | .SystemStatus => (.Success, env)
  | .SetHeaterState _ => (if subOk then .Success else .Error, env)
  | .SetCommsLink _ => (if subOk then .Success else .Error, env)
  | .SetSolarPanel _ => (if subOk then .Success else .Error, env)
  | .SetTxPower _ => (if subOk then .Success else .Error, env)
  | .SimulateFault _ _ => (.Success, env)
  | .ClearFaults _ => (.Success, env)
  | .ClearSafetyEvents force =>
    match clear_safety_events env.safety force with
    | .ok m => (.Success, { env with safety := m })
    | .error _ => (.Error, env)
  | .SetSafeMode enabled =>
    if enabled then
      let m := (force_safe_mode env.safety now).1
      (if m.state.safe_mode_active then ResponseStatus.Success
       else ResponseStatus.Error, { env with safety := m })
    else
      let m := (disable_safe_mode env.safety now).1
      (if !m.state.safe_mode_active || m.state.manual_override_active then
        ResponseStatus.Success else ResponseStatus.Error,
       { env with safety := m })
  | .TransmitMessage message =>
    if message.length ≤ 256 then
      (if subOk then .Success else .Error, env)
    else (.Error, env)
  | .SystemReboot => (.Success, env)
  | .SetFaultInjection _ => (.Success, env)
  | .GetFaultInjectionStatus => (.Success, env)

/-- The validation / safe-mode gate / dispatch tail of
`SatelliteAgent::execute_command` (`src/agent.rs:189-401`), entered after
tracking and the scheduling check.  Returns the `response_status` used in
the emitted response together with the updated state; the tracker ends at
`Success ↦ Success`, `Error ↦ ExecutionFailed`, other ↦ itself. -/
def execute_command_core (env : ExecEnv) (cmd : Command) (now : Nat)
    (subOk : Bool) : ResponseStatus × ExecEnv :=
  match validate_command cmd with
  | .error _ =>
    (.NegativeAck,
      { env with tracked_commands :=
          (update_command_status cmd.id ResponseStatus.NegativeAck now
            env.tracked_commands) })
  | .ok _ =>
    let env := { env with tracked_commands :=
        (update_command_status cmd.id ResponseStatus.Acknowledged now
          env.tracked_commands) }
    if env.safety.state.safe_mode_active = true ∧
        allowed_in_safe_mode cmd.command_type = false then
      (.NegativeAck,
        { env with tracked_commands :=
            (update_command_status cmd.id ResponseStatus.NegativeAck now
              env.tracked_commands) })
    else
      let env := { env with tracked_commands :=
          (update_command_status cmd.id ResponseStatus.ExecutionStarted now
            env.tracked_commands) }
      let r := dispatch_status env now subOk cmd.command_type
      let final :=
        match r.1 with
        | .Success => ResponseStatus.Success
        | .Error => ResponseStatus.ExecutionFailed
        | s => s
      (r.1,
        { r.2 with tracked_commands :=
            (update_command_status cmd.id final now r.2.tracked_commands) })

/-- The `SatelliteAgent::execute_command` (`src/agent.rs:164-401`): track the
command (30 s timeout; failure ⇒ immediate NegativeAck response); commands
with `execution_time > now` are handed to the scheduler and answered with
`Scheduled` (a scheduler rejection surfaces as `AgentError`); otherwise
validation, the safe-mode gate, and dispatch run.  Returns the response
status of the emitted response plus the updated state. -/
def execute_command (env : ExecEnv) (cmd : Command) (now : Nat)
    (subOk : Bool) : Except AgentError (ResponseStatus × ExecEnv) :=
  let tr := track_command env.tracked_commands cmd.id now 30000
  match tr.2 with
  | some _ => .ok (.NegativeAck, { env with tracked_commands := tr.1 })
  | none =>
    let env := { env with tracked_commands := tr.1 }
    match cmd.execution_time with
    | some execution_time =>
      if now < execution_time then
        match schedule_command env.scheduled_commands cmd now 3600 with
        | .error _ => .error .SchedulingError
        | .ok sched =>
          .ok (.Scheduled, { env with scheduled_commands := sched })
      else .ok (execute_command_core env cmd now subOk)
    | none => .ok (execute_command_core env cmd now subOk)

/-! ### Claim C1 -/

/-- C1 (amended): with safe mode active, a command outside the allow-list
{Ping, SystemStatus, ClearFaults, ClearSafetyEvents, SetSafeMode} can only
be answered with `NegativeAck` or — when it carries a future
`execution_time` and is accepted by the scheduler — `Scheduled`; when it
is executed immediately (no future `execution_time`), the answer is always
`NegativeAck`.  Only allow-listed commands can reach the dispatch arms. -/
theorem safe_mode_blocks_non_allowlisted (env : ExecEnv) (cmd : Command)
    (now : Nat) (subOk : Bool) (r : ResponseStatus) (env' : ExecEnv)
    (hsm : env.safety.state.safe_mode_active = true)
    (hna : allowed_in_safe_mode cmd.command_type = false)
    (h : execute_command env cmd now subOk = .ok (r, env')) :
    (r = .NegativeAck ∨ r = .Scheduled) ∧
    ((∀ t, cmd.execution_time = some t → t ≤ now) → r = .NegativeAck) := by
  have hcore : ∀ (e : ExecEnv), e.safety.state.safe_mode_active = true →
      (execute_command_core e cmd now subOk).1 = .NegativeAck := by
    intro e hsm'
    unfold execute_command_core
    rcases hv : validate_command cmd with _ | u
    · rfl
    · simp only []
      rw [if_pos ⟨hsm', hna⟩]
  unfold execute_command at h
  simp only [] at h
  rcases htr : (track_command env.tracked_commands cmd.id now 30000).2
    with _ | e
  · rw [htr] at h
    simp only [] at h
    rcases het : cmd.execution_time with _ | t
    · rw [het] at h
      simp only [Except.ok.injEq] at h
      have hthis := hcore { env with tracked_commands :=
        (track_command env.tracked_commands cmd.id now 30000).1 } hsm
      rw [h] at hthis
      exact ⟨Or.inl hthis, fun _ => hthis⟩
    · rw [het] at h
      simp only [] at h
      by_cases hlt : now < t
      · rw [if_pos hlt] at h
        rcases hs : schedule_command env.scheduled_commands cmd now 3600
          with e | sched
        · rw [hs] at h
          simp at h
        · rw [hs] at h
          simp only [Except.ok.injEq, Prod.mk.injEq] at h
          refine ⟨Or.inr h.1.symm, fun hall => ?_⟩
          have := hall t rfl
          omega
      · rw [if_neg hlt] at h
        simp only [Except.ok.injEq] at h
        have hthis := hcore { env with tracked_commands :=
          (track_command env.tracked_commands cmd.id now 30000).1 } hsm
        rw [h] at hthis
        exact ⟨Or.inl hthis, fun _ => hthis⟩
  · rw [htr] at h
    simp only [Except.ok.injEq, Prod.mk.injEq] at h
    rw [← h.1]
    exact ⟨Or.inl rfl, fun _ => rfl⟩

/-- Counterexample for C1 as stated: in safe mode, a non-allow-listed
`SetHeaterState` command with a future `execution_time` is answered with
`Scheduled`, not `NegativeAck`. -/
theorem safe_mode_scheduled_counterexample :
    execute_command ⟨[], [], forcedFreshManager⟩
        ⟨1, 0, .SetHeaterState true, some 5000⟩ 0 true =
      .ok (.Scheduled,
        ⟨[CommandTracker.new 1 0 30000],
          [⟨⟨1, 0, .SetHeaterState true, some 5000⟩, 5000, 0⟩],
          forcedFreshManager⟩) ∧
    forcedFreshManager.state.safe_mode_active = true ∧
    allowed_in_safe_mode (.SetHeaterState true) = false := by
  refine ⟨by rfl, by rfl, by rfl⟩

/-- The post-state of the blocked witness command. -/
def blockedEnv : ExecEnv :=
  ⟨[⟨2, 0, .NegativeAck, none, 30000, 0, 0⟩], [], forcedFreshManager⟩

/-- Witness for C1 (amended): in safe mode an immediate `SetHeaterState`
command is answered with `NegativeAck`. -/
theorem safe_mode_blocks_non_allowlisted_witness :
    execute_command ⟨[], [], forcedFreshManager⟩
        ⟨2, 0, .SetHeaterState true, none⟩ 0 true =
      .ok (.NegativeAck, blockedEnv) ∧
    (ResponseStatus.NegativeAck = .NegativeAck ∨
      ResponseStatus.NegativeAck = .Scheduled) :=
  ⟨by rfl,
    (safe_mode_blocks_non_allowlisted ⟨[], [], forcedFreshManager⟩
      ⟨2, 0, .SetHeaterState true, none⟩ 0 true .NegativeAck blockedEnv
      (by rfl) (by rfl) (by rfl)).1⟩

end Satbus
